import Mathlib

/-!
# Shopping-list backend: list completion, history snapshots and reuse

A shallow embedding of `backend/handlers/handlers.go` (`MarkListDone`,
`ReuseList`), the schema of `backend/db/db.go` and the route table of
`backend/routes/routes.go`.

Modelling conventions

* A JSON document is represented by the tree `encoding/json` decodes it to
  (`interface{}` holding `nil`, `bool`, `float64`, `string`, `[]interface{}`
  or `map[string]interface{}`).  Turning such a tree into bytes and back is
  the work of `encoding/json` and of the `JSONB` column, not of this
  repository; `json.Marshal` is modelled as producing the tree directly.
* A finite `float64` is represented by its exact value.  Identifiers come from
  `SERIAL` (32-bit) columns, so the conversion of an integer literal to
  `float64` done by the decoder is exact.
* Every SQL statement runs atomically or fails.  Which statements fail for
  reasons outside the model (connectivity, length or precision limits,
  foreign keys on `users`) is given by an arbitrary function `fails` from the
  position of the statement within the request to `Bool`.
* Of the schema the model keeps the nullable columns, the defaults, the
  `SERIAL` primary keys, the foreign keys to `shopping_lists` and their
  `ON DELETE` actions.  A value is stored as it is passed: the rounding of
  `DECIMAL(10, 2)` is not modelled.
* Timestamps and log output are left out.
-/

namespace ShoppingList

/-! ## Values -/

/-- Go `float64`: a finite value, or one of the three values JSON cannot carry. -/
inductive Float64 where
  | finite (v : ℚ)
  | nan
  | posInf
  | negInf
  deriving DecidableEq

/-- Whether a `float64` is neither NaN nor an infinity. -/
def Float64.isFinite : Float64 → Bool
  | .finite _ => true
  | _ => false

/-- A decoded JSON document (`interface{}` as filled in by `json.Unmarshal`). -/
inductive JSON where
  | null : JSON
  | bool (b : Bool) : JSON
  | num (v : ℚ) : JSON
  | str (s : String) : JSON
  | arr (elems : List JSON) : JSON
  | obj (fields : List (String × JSON)) : JSON

/-- Go `map[string]interface{}` after decoding; a `nil` map is the empty list. -/
abbrev GoMap := List (String × JSON)

/-- Index expression `m[key]` on a decoded map: `none` is the `nil` interface
returned for an absent key.  When a document repeats a key the last occurrence
is the one the decoder keeps. -/
def GoMap.get : GoMap → String → Option JSON
  | [], _ => none
  | (k, v) :: rest, key =>
    match GoMap.get rest key with
    | some w => some w
    | none => if k = key then some v else none

/-- Go slice that may be `nil` (`none`); `json.Marshal` tells the two apart. -/
abbrev GoSlice (α : Type) := Option (List α)

/-- Built-in `append(s, x)`. -/
def GoSlice.append {α : Type} (s : GoSlice α) (x : α) : GoSlice α :=
  some (s.getD [] ++ [x])

/-! ## Schema (`db.go`) -/

/-- Row of `shopping_lists`. -/
structure ShoppingListRow where
  id : Int
  user_id : Int
  name : String
  deriving DecidableEq

/-- Row of `shopping_items`; `quantity`, `unit` and `purchased` are nullable. -/
structure ShoppingItemRow where
  id : Int
  list_id : Int
  name : String
  quantity : Option Float64
  unit : Option String
  purchased : Option Bool
  deriving DecidableEq

/-- Row of `list_history`; `original_list_id` and `data` are nullable. -/
structure ListHistoryRow where
  id : Int
  user_id : Int
  original_list_id : Option Int
  action : String
  data : Option JSON

/-- The three tables the handlers touch, with the next value of each
`SERIAL` sequence. -/
structure DB where
  shopping_lists : List ShoppingListRow
  shopping_items : List ShoppingItemRow
  list_history : List ListHistoryRow
  shopping_lists_id_seq : Int
  shopping_items_id_seq : Int
  list_history_id_seq : Int

/-! ## Snapshot written by `MarkListDone` (handlers.go 226-255) -/

/-- The map literal appended for one scanned row:
`{"id": itemID, "name": name, "quantity": quantity, "unit": unit, "purchased": purchased}`. -/
structure ItemMap where
  id : Int
  name : String
  quantity : Float64
  unit : Option String
  purchased : Bool
  deriving DecidableEq

/-- Call `rows.Scan(&itemID, &name, &quantity, &unit, &purchased)`: scanning NULL
into `float64` or `bool` is an error, `*string` accepts NULL. -/
def scanItem (r : ShoppingItemRow) : Except String ItemMap :=
  match r.quantity, r.purchased with
  | some quantity, some purchased => .ok ⟨r.id, r.name, quantity, r.unit, purchased⟩
  | _, _ => .error "sql: Scan error"

/-- The `for rows.Next()` loop of `MarkListDone`: scan, then append the map. -/
def scanItems : List ShoppingItemRow → GoSlice ItemMap → Except String (GoSlice ItemMap)
  | [], items => .ok items
  | r :: rows, items =>
    match scanItem r with
    | .error e => .error e
    | .ok m => scanItems rows (GoSlice.append items m)

/-- Encoding of a `float64` by `json.Marshal`: NaN and infinities are rejected. -/
def marshalFloat64 : Float64 → Except String JSON
  | .finite v => .ok (.num v)
  | _ => .error "json: unsupported value"

/-- Encoding of a `*string`: `nil` becomes `null`. -/
def marshalStringPtr : Option String → JSON
  | none => .null
  | some s => .str s

/-- Encoding of one item map; `json.Marshal` writes the keys of a map sorted. -/
def marshalItemMap (m : ItemMap) : Except String JSON :=
  match marshalFloat64 m.quantity with
  | .error e => .error e
  | .ok q =>
    .ok (.obj [("id", .num m.id), ("name", .str m.name), ("purchased", .bool m.purchased),
      ("quantity", q), ("unit", marshalStringPtr m.unit)])

/-- Encoding of the elements of a slice of item maps, first failure wins. -/
def marshalItemMaps : List ItemMap → Except String (List JSON)
  | [] => .ok []
  | m :: ms =>
    match marshalItemMap m with
    | .error e => .error e
    | .ok j =>
      match marshalItemMaps ms with
      | .error e => .error e
      | .ok js => .ok (j :: js)

/-- Encoding of `[]map[string]interface{}`: a `nil` slice is written as `null`. -/
def marshalItems : GoSlice ItemMap → Except String JSON
  | none => .ok .null
  | some ms =>
    match marshalItemMaps ms with
    | .error e => .error e
    | .ok js => .ok (.arr js)

/-- Call `json.Marshal(map[string]interface{}{"name": listName, "items": items})`. -/
def marshalSnapshot (listName : String) (items : GoSlice ItemMap) : Except String JSON :=
  match marshalItems items with
  | .error e => .error e
  | .ok js => .ok (.obj [("items", js), ("name", .str listName)])

/-- Lines 226-255 of `MarkListDone`: from the rows returned by the items query
to the snapshot document, or the error that ends the request. -/
def buildSnapshot (listName : String) (rows : List ShoppingItemRow) : Except String JSON :=
  match scanItems rows none with
  | .error e => .error e
  | .ok items => marshalSnapshot listName items

/-! ## Snapshot read by `ReuseList` (handlers.go 411-431) -/

/-- Call `json.Unmarshal([]byte(historyData), &data)` with
`data : map[string]interface{}`: an object fills the map, `null` leaves it
`nil`, any other document is an error. -/
def jsonUnmarshal : JSON → Except String GoMap
  | .obj fields => .ok fields
  | .null => .ok []
  | _ => .error "json: cannot unmarshal into Go value of type map[string]interface {}"

/-- Lines 418-421: `listName, ok := data["name"].(string)` with its fallback. -/
def decodeListName (data : GoMap) : String :=
  match data.get "name" with
  | some (.str s) => s
  | _ => "Reused List"

/-- Lines 426-430: keep the elements that assert to `map[string]interface{}`. -/
def collectItemMaps : List JSON → List GoMap → List GoMap
  | [], items => items
  | .obj itemMap :: rest, items => collectItemMaps rest (items ++ [itemMap])
  | _ :: rest, items => collectItemMaps rest items

/-- Lines 424-431: `items` stays empty unless `data["items"]` is an array. -/
def decodeItems (data : GoMap) : List GoMap :=
  match data.get "items" with
  | some (.arr itemsData) => collectItemMaps itemsData []
  | _ => []

/-- Lines 411-431 of `ReuseList`: the decoded name and item maps, or the parse error. -/
def parseSnapshot (historyData : JSON) : Except String (String × List GoMap) :=
  match jsonUnmarshal historyData with
  | .error e => .error e
  | .ok data => .ok (decodeListName data, decodeItems data)

/-! ## Store (`database/sql` over PostgreSQL) -/

/-- Outcome of a failed statement: `sql.ErrNoRows`, or any other error. -/
inductive SqlError where
  | noRows
  | failed
  deriving DecidableEq

/-- White space skipped by PostgreSQL around an integer. -/
def pgSpace (c : Char) : Bool :=
  c = ' ' || c = '\t' || c = '\n' || c = '\r'

/-- Value of a run of decimal digits, `none` when another character occurs. -/
def pgDigits : List Char → Nat → Option Nat
  | [], acc => some acc
  | c :: cs, acc => if c.isDigit then pgDigits cs (acc * 10 + (c.toNat - 48)) else none

/-- Magnitude of an unsigned integer text, which needs at least one digit. -/
def pgMagnitude (ds : List Char) : Option Nat :=
  if ds = [] then none else pgDigits ds 0

/-- Conversion PostgreSQL applies to a text parameter compared with or stored
in an `INTEGER` column: optional sign, decimal digits, 32-bit range.  A text
it rejects makes the statement fail. -/
def pgInt4 (s : String) : Option Int :=
  let cs := ((s.data.dropWhile pgSpace).reverse.dropWhile pgSpace).reverse
  match cs with
  | [] => none
  | c :: ds =>
    if c = '-' then
      match pgMagnitude ds with
      | some n => if n ≤ 2147483648 then some (-(n : Int)) else none
      | none => none
    else
      match pgMagnitude (if c = '+' then ds else c :: ds) with
      | some n => if n ≤ 2147483647 then some (n : Int) else none
      | none => none

/-- Query `SELECT name, user_id FROM shopping_lists WHERE id = $1` with
`QueryRow(...).Scan(&listName, &userID)`. -/
def selectList (db : DB) (fail : Bool) (id : Option Int) : Except SqlError (String × Int) :=
  if fail then .error .failed
  else
    match id with
    | none => .error .failed
    | some n =>
      match db.shopping_lists.find? (fun l => l.id = n) with
      | none => .error .noRows
      | some l => .ok (l.name, l.user_id)

/-- Query `SELECT id, name, quantity, unit, purchased FROM shopping_items
WHERE list_id = $1 ORDER BY id`. -/
def selectItems (db : DB) (fail : Bool) (id : Option Int) :
    Except SqlError (List ShoppingItemRow) :=
  if fail then .error .failed
  else
    match id with
    | none => .error .failed
    | some n =>
      .ok ((db.shopping_items.filter (fun r => r.list_id = n)).insertionSort
        (fun a b => a.id ≤ b.id))

/-- Statement `INSERT INTO list_history (user_id, original_list_id, action, data)
VALUES ($1, $2, $3, $4)`.  The identifier is drawn from the sequence; the
primary key and the foreign key to `shopping_lists` are checked. -/
def insertHistory (db : DB) (fail : Bool) (user_id original_list_id : Option Int)
    (action : String) (data : JSON) : Except SqlError Unit × DB :=
  if fail then (.error .failed, db)
  else
    match user_id, original_list_id with
    | some u, some l =>
      let id := db.list_history_id_seq
      let db1 := { db with list_history_id_seq := id + 1 }
      if (db.list_history.any (fun h => h.id = id)) || !(db.shopping_lists.any (fun r => r.id = l))
      then (.error .failed, db1)
      else (.ok (), { db1 with list_history := db.list_history ++ [⟨id, u, some l, action, some data⟩] })
    | _, _ => (.error .failed, db)

/-- Statement `DELETE FROM shopping_lists WHERE id = $1`, with the two
referential actions of the schema: `shopping_items.list_id ... ON DELETE
CASCADE` and `list_history.original_list_id ... ON DELETE SET NULL`. -/
def deleteList (db : DB) (fail : Bool) (id : Option Int) : Except SqlError Unit × DB :=
  if fail then (.error .failed, db)
  else
    match id with
    | none => (.error .failed, db)
    | some n =>
      (.ok (), { db with
        shopping_lists := db.shopping_lists.filter (fun l => l.id ≠ n)
        shopping_items := db.shopping_items.filter (fun r => r.list_id ≠ n)
        list_history := db.list_history.map (fun h =>
          if h.original_list_id = some n then { h with original_list_id := none } else h) })

/-- Query `SELECT data FROM list_history WHERE id = $1 AND user_id = $2` with
`QueryRow(...).Scan(&historyData)`; a NULL `data` cannot be scanned into a
`string`. -/
def selectHistoryData (db : DB) (fail : Bool) (id user_id : Option Int) : Except SqlError JSON :=
  if fail then .error .failed
  else
    match id, user_id with
    | some n, some u =>
      match db.list_history.find? (fun h => h.id = n ∧ h.user_id = u) with
      | none => .error .noRows
      | some h =>
        match h.data with
        | none => .error .failed
        | some historyData => .ok historyData
    | _, _ => .error .failed

/-- Statement `INSERT INTO shopping_lists (user_id, name) VALUES ($1, $2)
RETURNING id`. -/
def insertList (db : DB) (fail : Bool) (user_id : Option Int) (name : String) :
    Except SqlError Int × DB :=
  if fail then (.error .failed, db)
  else
    match user_id with
    | none => (.error .failed, db)
    | some u =>
      let id := db.shopping_lists_id_seq
      let db1 := { db with shopping_lists_id_seq := id + 1 }
      if db.shopping_lists.any (fun r => r.id = id) then (.error .failed, db1)
      else (.ok id, { db1 with shopping_lists := db.shopping_lists ++ [⟨id, u, name⟩] })

/-- Statement `INSERT INTO shopping_items (list_id, name, quantity, unit)
VALUES ($1, $2, $3, $4)`; `purchased` takes its default `FALSE`. -/
def insertItem (db : DB) (fail : Bool) (list_id : Int) (name : String) (quantity : Float64)
    (unit : String) : Except SqlError Unit × DB :=
  if fail then (.error .failed, db)
  else
    let id := db.shopping_items_id_seq
    let db1 := { db with shopping_items_id_seq := id + 1 }
    if (db.shopping_items.any (fun r => r.id = id)) || !(db.shopping_lists.any (fun r => r.id = list_id))
    then (.error .failed, db1)
    else (.ok (), { db1 with
      shopping_items := db.shopping_items ++ [⟨id, list_id, name, some quantity, some unit, some false⟩] })

/-! ## Handlers (`handlers.go`) -/

/-- What `c.JSON(status, gin.H{...})` sends. -/
structure Response where
  status : Nat
  body : List (String × JSON)

/-- Response `c.JSON(status, gin.H{"error": msg})`. -/
def errorResponse (status : Nat) (msg : String) : Response :=
  ⟨status, [("error", .str msg)]⟩

/-- Handler `MarkListDone`.  `id` is `c.Param("id")`; `body` is the outcome of
`c.ShouldBindJSON(&req)`, the bound `req.UserID` or the binding error. -/
def MarkListDone (db : DB) (fails : Nat → Bool) (id : String) (body : Except String Int) :
    Response × DB :=
  match body with
  | .error e => (errorResponse 400 e, db)
  | .ok _ =>
    match selectList db (fails 0) (pgInt4 id) with
    | .error _ => (errorResponse 500 "Failed to retrieve list", db)
    | .ok (listName, userID) =>
      match selectItems db (fails 1) (pgInt4 id) with
      | .error _ => (errorResponse 500 "Failed to retrieve items", db)
      | .ok rows =>
        match scanItems rows none with
        | .error _ => (errorResponse 500 "Failed to scan items", db)
        | .ok items =>
          match marshalSnapshot listName items with
          | .error _ => (errorResponse 500 "Failed to marshal data", db)
          | .ok dataJSON =>
            match insertHistory db (fails 2) (some userID) (pgInt4 id) "created" dataJSON with
            | (.error _, db1) => (errorResponse 500 "Failed to save to history", db1)
            | (.ok _, db1) =>
              match deleteList db1 (fails 3) (pgInt4 id) with
              | (.error _, db2) => (errorResponse 500 "Failed to delete list", db2)
              | (.ok _, db2) =>
                (⟨200, [("message", .str "List marked as done and saved to history")]⟩, db2)

/-- Line 447: `name, _ := item["name"].(string)`. -/
def itemName (item : GoMap) : String :=
  match item.get "name" with
  | some (.str s) => s
  | _ => ""

/-- Line 448: `quantity, _ := item["quantity"].(float64)`. -/
def itemQuantity (item : GoMap) : Float64 :=
  match item.get "quantity" with
  | some (.num v) => .finite v
  | _ => .finite 0

/-- Line 449: `unit, _ := item["unit"].(string)`. -/
def itemUnit (item : GoMap) : String :=
  match item.get "unit" with
  | some (.str s) => s
  | _ => ""

/-- Lines 446-459 of `ReuseList`: one insert per decoded item, stopping at the
first failure.  `k` is the position of the next statement in the request. -/
def copyItems (fails : Nat → Bool) (newListID : Int) : List GoMap → Nat → DB →
    Except SqlError Unit × DB
  | [], _, db => (.ok (), db)
  | item :: rest, k, db =>
    match insertItem db (fails k) newListID (itemName item) (itemQuantity item) (itemUnit item) with
    | (.error e, db1) => (.error e, db1)
    | (.ok _, db1) => copyItems fails newListID rest (k + 1) db1

/-- Lines 462-465: the provenance document
`{"original_history_id": id, "new_list_id": newListID}`. -/
def historyEntry (id : String) (newListID : Int) : JSON :=
  .obj [("new_list_id", .num newListID), ("original_history_id", .str id)]

/-- Handler `ReuseList`.  `id` is `c.Param("id")`, `userID` is
`c.Query("user_id")`. -/
def ReuseList (db : DB) (fails : Nat → Bool) (id userID : String) : Response × DB :=
  if userID = "" then (errorResponse 400 "user_id query parameter required", db)
  else
    match selectHistoryData db (fails 0) (pgInt4 id) (pgInt4 userID) with
    | .error .noRows => (errorResponse 404 "History entry not found", db)
    | .error .failed => (errorResponse 500 "Failed to retrieve history", db)
    | .ok historyData =>
      match parseSnapshot historyData with
      | .error _ => (errorResponse 500 "Failed to parse history data", db)
      | .ok (listName, items) =>
        match insertList db (fails 1) (pgInt4 userID) listName with
        | (.error _, db1) => (errorResponse 500 "Failed to create new list", db1)
        | (.ok newListID, db1) =>
          match copyItems fails newListID items 2 db1 with
          | (.error _, db2) => (errorResponse 500 "Failed to copy item", db2)
          | (.ok _, db2) =>
            (⟨201, [("id", .num newListID),
                ("message", .str "List created from history successfully")]⟩,
              (insertHistory db2 (fails (2 + items.length)) (pgInt4 userID) (some newListID)
                "reused" (historyEntry id newListID)).2)

/-! ## Routes (`routes.go`) -/

/-- The exported functions of package `handlers`. -/
inductive Handler where
  | HealthCheck | CreateList | GetUserLists | GetList | UpdateList | DeleteList
  | MarkListDone | CreateItem | UpdateItem | DeleteItem | GetUserHistory | ReuseList
  deriving DecidableEq

/-- One registration `group.METHOD(path, handler)`. -/
structure Route where
  method : String
  path : String
  handler : Handler
  deriving DecidableEq

/-- The registrations made by `SetupRoutes`, in source order, with the group
prefixes `/api/v1`, `/lists`, `/items` and `/history` applied. -/
def SetupRoutes : List Route :=
  let v1 := "/api/v1"
  let lists := v1 ++ "/lists"
  let items := v1 ++ "/items"
  let history := v1 ++ "/history"
  [ ⟨"POST", lists ++ "", .CreateList⟩,
    ⟨"GET", lists ++ "", .GetUserLists⟩,
    ⟨"GET", lists ++ "/:id", .GetList⟩,
    ⟨"PUT", lists ++ "/:id", .UpdateList⟩,
    ⟨"DELETE", lists ++ "/:id", .DeleteList⟩,
    ⟨"POST", items ++ "", .CreateItem⟩,
    ⟨"PUT", items ++ "/:id", .UpdateItem⟩,
    ⟨"DELETE", items ++ "/:id", .DeleteItem⟩,
    ⟨"GET", history ++ "", .GetUserHistory⟩,
    ⟨"POST", history ++ "/reuse/:id", .ReuseList⟩,
    ⟨"GET", "/health", .HealthCheck⟩ ]

/-- Segments of a path between the slashes. -/
def pathSegments : List Char → List Char → List (List Char)
  | [], cur => [cur.reverse]
  | c :: cs, cur => if c = '/' then cur.reverse :: pathSegments cs [] else pathSegments cs (c :: cur)

/-- Whether a request path fits a registered pattern: a segment starting with
a colon is a parameter and takes any non-empty segment. -/
def matchSegments : List (List Char) → List (List Char) → Bool
  | [], [] => true
  | p :: ps, r :: rs =>
    (if p.head? = some ':' then !r.isEmpty else p = r) && matchSegments ps rs
  | _, _ => false

/-- The handler the router selects for a request, `none` standing for gin's 404. -/
def dispatch (method path : String) : Option Handler :=
  (SetupRoutes.find? (fun r =>
    r.method = method && matchSegments (pathSegments r.path.data []) (pathSegments path.data []))).map
    (fun r => r.handler)

/-! ## Auxiliary notions used to state the properties -/

/-- Whether a document is a JSON object, that is, asserts to
`map[string]interface{}`. -/
def JSON.isObject : JSON → Bool
  | .obj _ => true
  | _ => false

/-- The rows a run of successful item inserts adds for the decoded items,
the first of them taking the identifier `seq`. -/
def copiedRows (newListID : Int) : Int → List GoMap → List ShoppingItemRow
  | _, [] => []
  | seq, item :: rest =>
    ⟨seq, newListID, itemName item, some (itemQuantity item), some (itemUnit item), some false⟩ ::
      copiedRows newListID (seq + 1) rest

/-! ## Concrete stores used as examples -/

/-- The snapshot `{"name":"Groceries","items":[{"id":1,"name":"Milk","quantity":2,
"unit":"L","purchased":false}]}`. -/
def groceriesPayload : JSON :=
  .obj [("name", .str "Groceries"),
    ("items", .arr [.obj [("id", .num 1), ("name", .str "Milk"), ("quantity", .num 2),
      ("unit", .str "L"), ("purchased", .bool false)]])]

/-- A store with no live list and one history record, number 5 of user 1,
holding `groceriesPayload`. -/
def groceriesDB : DB :=
  { shopping_lists := [], shopping_items := []
    list_history := [⟨5, 1, none, "created", some groceriesPayload⟩]
    shopping_lists_id_seq := 10, shopping_items_id_seq := 20, list_history_id_seq := 6 }

/-- The same snapshot with a `null` unit, as `MarkListDone` writes it for an
item whose `unit` column is NULL. -/
def nullUnitPayload : JSON :=
  .obj [("items", .arr [.obj [("id", .num 1), ("name", .str "Milk"), ("purchased", .bool false),
      ("quantity", .num 2), ("unit", .null)]]),
    ("name", .str "Groceries")]

/-- A store whose only history record, number 5 of user 1, holds `nullUnitPayload`. -/
def nullUnitDB : DB :=
  { shopping_lists := [], shopping_items := []
    list_history := [⟨5, 1, none, "created", some nullUnitPayload⟩]
    shopping_lists_id_seq := 10, shopping_items_id_seq := 20, list_history_id_seq := 6 }

/-- No statement fails. -/
def noFailure : Nat → Bool := fun _ => false

/-- Only the statement at position `k` of the request fails. -/
def failsAt (k : Nat) : Nat → Bool := fun j => j == k

/-- A store with list 7 "Weekend" of user 1 holding three items, a second list
with one item, and an older history record that refers to list 7. -/
def weekendDB : DB :=
  { shopping_lists := [⟨7, 1, "Weekend"⟩, ⟨8, 2, "Office"⟩]
    shopping_items :=
      [⟨33, 7, "Bread", some (.finite 1), some "", some false⟩,
        ⟨31, 7, "Milk", some (.finite 2), some "L", some true⟩,
        ⟨34, 8, "Paper", some (.finite 5), some "pack", some false⟩,
        ⟨32, 7, "Eggs", some (.finite 12), none, some false⟩]
    list_history := [⟨4, 1, some 7, "reused", some (historyEntry "2" 7)⟩]
    shopping_lists_id_seq := 9, shopping_items_id_seq := 35, list_history_id_seq := 5 }

/-- A store with list 3 "Empty" of user 1 and no items. -/
def emptyListDB : DB :=
  { shopping_lists := [⟨3, 1, "Empty"⟩], shopping_items := [], list_history := []
    shopping_lists_id_seq := 4, shopping_items_id_seq := 1, list_history_id_seq := 1 }

/-- The three item rows of list 7 in `weekendDB`, in ascending identifier order. -/
def weekendRows : List ShoppingItemRow :=
  [⟨31, 7, "Milk", some (.finite 2), some "L", some true⟩,
    ⟨32, 7, "Eggs", some (.finite 12), none, some false⟩,
    ⟨33, 7, "Bread", some (.finite 1), some "", some false⟩]

/-- A store whose only history record, number 5 of user 1, holds a snapshot
with `null` in place of the items. -/
def noItemsDB : DB :=
  { shopping_lists := [], shopping_items := []
    list_history := [⟨5, 1, none, "created", some (.obj [("items", .null), ("name", .str "Empty")])⟩]
    shopping_lists_id_seq := 10, shopping_items_id_seq := 20, list_history_id_seq := 6 }

/-- The store `weekendDB` after list 7 has been completed. -/
def weekendDoneDB : DB :=
  (MarkListDone weekendDB noFailure "7" (.ok 99)).2

/-- A store whose only history record, number 5 of user 1, holds a snapshot
with three item maps: an empty one, one whose fields all have the wrong JSON
type, and one with a `null` unit. -/
def looseItemsDB : DB :=
  { shopping_lists := [], shopping_items := []
    list_history := [⟨5, 1, none, "created", some (.obj [("name", .str "Loose"),
      ("items", .arr [.obj [],
        .obj [("name", .num 5), ("quantity", .str "2"), ("unit", .bool true)],
        .obj [("name", .str "Eggs"), ("quantity", .num 12), ("unit", .null)]])])⟩]
    shopping_lists_id_seq := 10, shopping_items_id_seq := 20, list_history_id_seq := 6 }

theorem scanItem_ok {r : ShoppingItemRow} {m : ItemMap} (h : scanItem r = .ok m) :
    ∃ q b, r.quantity = some q ∧ r.purchased = some b ∧ m = ⟨r.id, r.name, q, r.unit, b⟩ := by
  unfold scanItem at h
  split at h
  · rename_i q b hq hb
    exact ⟨q, b, hq, hb, by injection h with h; exact h.symm⟩
  · cases h

theorem scanItems_ok (rows : List ShoppingItemRow) :
    ∀ (acc s : GoSlice ItemMap), scanItems rows acc = .ok s →
      ∃ ms, List.Forall₂ (fun r m => scanItem r = .ok m) rows ms ∧
        s = if ms = [] then acc else some (acc.getD [] ++ ms) := by
  induction rows with
  | nil =>
    intro acc s h
    simp only [scanItems, Except.ok.injEq] at h
    exact ⟨[], List.Forall₂.nil, by simp [h]⟩
  | cons r rows ih =>
    intro acc s h
    simp only [scanItems] at h
    split at h
    · cases h
    · rename_i m hm
      obtain ⟨ms, hms, hs⟩ := ih _ _ h
      refine ⟨m :: ms, List.Forall₂.cons hm hms, ?_⟩
      by_cases hnil : ms = []
      · simp [hs, hnil, GoSlice.append]
      · simp [hs, hnil, GoSlice.append]

theorem scanItems_total (rows : List ShoppingItemRow) :
    ∀ (acc : GoSlice ItemMap), (∀ r ∈ rows, ∃ m, scanItem r = .ok m) →
      ∃ s, scanItems rows acc = .ok s := by
  induction rows with
  | nil => intro acc _; exact ⟨acc, rfl⟩
  | cons r rows ih =>
    intro acc h
    obtain ⟨m, hm⟩ := h r (List.mem_cons_self _ _)
    obtain ⟨s, hs⟩ := ih (GoSlice.append acc m) (fun r' hr' => h r' (List.mem_cons_of_mem _ hr'))
    exact ⟨s, by simp only [scanItems, hm, hs]⟩

theorem marshalItemMap_ok {m : ItemMap} {j : JSON} (h : marshalItemMap m = .ok j) :
    ∃ v, m.quantity = .finite v ∧
      j = .obj [("id", .num m.id), ("name", .str m.name), ("purchased", .bool m.purchased),
        ("quantity", .num v), ("unit", marshalStringPtr m.unit)] := by
  unfold marshalItemMap at h
  cases hq : m.quantity with
  | finite v =>
    simp only [hq, marshalFloat64, Except.ok.injEq] at h
    exact ⟨v, rfl, h.symm⟩
  | nan => simp [hq, marshalFloat64] at h
  | posInf => simp [hq, marshalFloat64] at h
  | negInf => simp [hq, marshalFloat64] at h

theorem marshalItemMaps_ok (ms : List ItemMap) :
    ∀ js, marshalItemMaps ms = .ok js →
      List.Forall₂ (fun m j => marshalItemMap m = .ok j) ms js := by
  induction ms with
  | nil =>
    intro js h
    simp only [marshalItemMaps, Except.ok.injEq] at h
    subst h
    exact List.Forall₂.nil
  | cons m ms ih =>
    intro js h
    simp only [marshalItemMaps] at h
    split at h
    · cases h
    · rename_i j hj
      split at h
      · cases h
      · rename_i js1 hjs
        simp only [Except.ok.injEq] at h
        subst h
        exact List.Forall₂.cons hj (ih _ hjs)

theorem marshalItemMaps_total (ms : List ItemMap) (h : ∀ m ∈ ms, m.quantity.isFinite = true) :
    ∃ js, marshalItemMaps ms = .ok js := by
  induction ms with
  | nil => exact ⟨[], rfl⟩
  | cons m ms ih =>
    obtain ⟨js, hjs⟩ := ih (fun m' hm' => h m' (List.mem_cons_of_mem _ hm'))
    have hm := h m (List.mem_cons_self _ _)
    cases hq : m.quantity with
    | finite v =>
      simp only [marshalItemMaps, marshalItemMap, hq, marshalFloat64, hjs]
      exact ⟨_, rfl⟩
    | nan => simp [hq, Float64.isFinite] at hm
    | posInf => simp [hq, Float64.isFinite] at hm
    | negInf => simp [hq, Float64.isFinite] at hm

theorem collectItemMaps_objects (js : List JSON) :
    ∀ (es acc : List GoMap), List.Forall₂ (fun j e => j = JSON.obj e) js es →
      collectItemMaps js acc = acc ++ es := by
  induction js with
  | nil =>
    intro es acc h
    cases h
    simp [collectItemMaps]
  | cons j js ih =>
    intro es acc h
    cases h with
    | cons hj hrest =>
      subst hj
      simp [collectItemMaps, ih _ _ hrest]

theorem forall₂_comp {α β γ : Type} {R : α → β → Prop} {S : β → γ → Prop} {T : α → γ → Prop}
    (hT : ∀ a b c, R a b → S b c → T a c) :
    ∀ (as : List α) (bs : List β) (cs : List γ), List.Forall₂ R as bs → List.Forall₂ S bs cs →
      List.Forall₂ T as cs := by
  intro as
  induction as with
  | nil =>
    intro bs cs h1 h2
    cases h1
    cases h2
    exact List.Forall₂.nil
  | cons a as ih =>
    intro bs cs h1 h2
    cases h1 with
    | cons hab h1 =>
      cases h2 with
      | cons hbc h2 => exact List.Forall₂.cons (hT _ _ _ hab hbc) (ih _ _ h1 h2)

theorem forall₂_right_total {α β : Type} {R : α → β → Prop} :
    ∀ (as : List α) (bs : List β), List.Forall₂ R as bs → ∀ b ∈ bs, ∃ a ∈ as, R a b := by
  intro as bs h
  induction h with
  | nil => intro b hb; cases hb
  | cons hab _ ih =>
    intro b hb
    rcases List.mem_cons.mp hb with hb | hb
    · subst hb
      exact ⟨_, List.mem_cons_self _ _, hab⟩
    · obtain ⟨a, ha, hr⟩ := ih b hb
      exact ⟨a, List.mem_cons_of_mem _ ha, hr⟩

theorem marshalled_entries (ms : List ItemMap) (js : List JSON)
    (h : List.Forall₂ (fun m j => marshalItemMap m = .ok j) ms js) :
    ∃ es : List GoMap, List.Forall₂ (fun j e => j = JSON.obj e) js es ∧
      List.Forall₂ (fun m e => ∃ v, m.quantity = .finite v ∧
        e = [("id", .num m.id), ("name", .str m.name), ("purchased", .bool m.purchased),
          ("quantity", .num v), ("unit", marshalStringPtr m.unit)]) ms es := by
  induction h with
  | nil => exact ⟨[], List.Forall₂.nil, List.Forall₂.nil⟩
  | cons hmj _ ih =>
    obtain ⟨es, h1, h2⟩ := ih
    obtain ⟨v, hv, hj⟩ := marshalItemMap_ok hmj
    exact ⟨_ :: es, List.Forall₂.cons hj h1, List.Forall₂.cons ⟨v, hv, rfl⟩ h2⟩

theorem buildSnapshot_decodes (listName : String) (rows : List ShoppingItemRow) (dataJSON : JSON)
    (h : buildSnapshot listName rows = .ok dataJSON) :
    ∃ decoded, parseSnapshot dataJSON = .ok (listName, decoded) ∧
      List.Forall₂ (fun r entry =>
        GoMap.get entry "id" = some (.num r.id) ∧
        GoMap.get entry "name" = some (.str r.name) ∧
        (∃ v, r.quantity = some (.finite v) ∧ GoMap.get entry "quantity" = some (.num v)) ∧
        GoMap.get entry "unit" = some (match r.unit with | none => .null | some u => .str u) ∧
        (∃ b, r.purchased = some b ∧ GoMap.get entry "purchased" = some (.bool b)))
        rows decoded := by
  unfold buildSnapshot at h
  split at h
  · cases h
  · rename_i items hscan
    obtain ⟨ms, hms, hitems⟩ := scanItems_ok rows none items hscan
    by_cases hnil : ms = []
    · subst hnil
      cases hms
      simp only [if_true] at hitems
      subst hitems
      simp only [marshalSnapshot, marshalItems, Except.ok.injEq] at h
      subst h
      exact ⟨[], by simp [parseSnapshot, jsonUnmarshal, decodeListName, decodeItems, GoMap.get],
        List.Forall₂.nil⟩
    · simp only [hnil, if_false, Option.getD_none, List.nil_append] at hitems
      subst hitems
      simp only [marshalSnapshot, marshalItems] at h
      split at h
      · cases h
      · rename_i js0 hjs0
        split at hjs0
        · cases hjs0
        · rename_i js hjs
          simp only [Except.ok.injEq] at hjs0 h
          subst hjs0
          subst h
          obtain ⟨es, hes, hme⟩ := marshalled_entries ms js (marshalItemMaps_ok ms js hjs)
          refine ⟨es, ?_, ?_⟩
          · simp [parseSnapshot, jsonUnmarshal, decodeListName, decodeItems, GoMap.get,
              collectItemMaps_objects js es [] hes]
          · refine forall₂_comp ?_ rows ms es hms hme
            intro r m e hrm hme
            obtain ⟨q, b, hq, hb, hm⟩ := scanItem_ok hrm
            obtain ⟨v, hv, he⟩ := hme
            subst hm
            subst he
            simp only at hv
            subst hv
            refine ⟨by simp [GoMap.get], by simp [GoMap.get], ⟨v, hq, by simp [GoMap.get]⟩, ?_,
              ⟨b, hb, by simp [GoMap.get]⟩⟩
            cases r.unit <;> simp [GoMap.get, marshalStringPtr]

theorem buildSnapshot_total (listName : String) (rows : List ShoppingItemRow)
    (h : ∀ r ∈ rows, (∃ v, r.quantity = some (.finite v)) ∧ ∃ b, r.purchased = some b) :
    ∃ dataJSON, buildSnapshot listName rows = .ok dataJSON := by
  have hscan : ∀ r ∈ rows, ∃ m, scanItem r = .ok m := by
    intro r hr
    obtain ⟨⟨v, hv⟩, b, hb⟩ := h r hr
    simp only [scanItem, hv, hb]
    exact ⟨_, rfl⟩
  obtain ⟨items, hitems⟩ := scanItems_total rows none hscan
  obtain ⟨ms, hms, hs⟩ := scanItems_ok rows none items hitems
  have hfin : ∀ m ∈ ms, m.quantity.isFinite = true := by
    intro m hm
    obtain ⟨r, hr, hrm⟩ := forall₂_right_total rows ms hms m hm
    obtain ⟨⟨v, hv⟩, _⟩ := h r hr
    obtain ⟨q, b, hq, _, hmeq⟩ := scanItem_ok hrm
    subst hmeq
    rw [hv] at hq
    cases hq
    rfl
  obtain ⟨js, hjs⟩ := marshalItemMaps_total ms hfin
  by_cases hnil : ms = []
  · simp only [hnil, if_true] at hs
    simp only [buildSnapshot, hitems, hs, marshalSnapshot, marshalItems]
    exact ⟨_, rfl⟩
  · simp only [hnil, if_false, Option.getD_none, List.nil_append] at hs
    simp only [buildSnapshot, hitems, hs, marshalSnapshot, marshalItems, hjs]
    exact ⟨_, rfl⟩

theorem insertList_ok {db db1 : DB} {fail : Bool} {user_id : Option Int} {name : String}
    {newListID : Int} (h : insertList db fail user_id name = (.ok newListID, db1)) :
    ∃ u, user_id = some u ∧ newListID = db.shopping_lists_id_seq ∧
      (∀ l ∈ db.shopping_lists, l.id ≠ newListID) ∧
      db1 = { db with shopping_lists_id_seq := db.shopping_lists_id_seq + 1
                      shopping_lists := db.shopping_lists ++ [⟨newListID, u, name⟩] } := by
  unfold insertList at h
  split at h
  · simp at h
  · split at h
    · simp at h
    · rename_i u
      dsimp only at h
      split at h
      · simp at h
      · rename_i hfresh
        simp only [Prod.mk.injEq, Except.ok.injEq] at h
        obtain ⟨h1, h2⟩ := h
        subst h1
        refine ⟨u, rfl, rfl, ?_, h2.symm⟩
        intro l hl heq
        apply hfresh
        simp only [List.any_eq_true, decide_eq_true_eq]
        exact ⟨l, hl, heq⟩

theorem insertItem_ok {db db1 : DB} {fail : Bool} {list_id : Int} {name : String}
    {quantity : Float64} {unit : String}
    (h : insertItem db fail list_id name quantity unit = (.ok (), db1)) :
    (∀ r ∈ db.shopping_items, r.id ≠ db.shopping_items_id_seq) ∧
      db1 = { db with
        shopping_items_id_seq := db.shopping_items_id_seq + 1
        shopping_items := db.shopping_items ++
          [⟨db.shopping_items_id_seq, list_id, name, some quantity, some unit, some false⟩] } := by
  unfold insertItem at h
  split at h
  · simp at h
  · dsimp only at h
    split at h
    · simp at h
    · rename_i hfresh
      simp only [Prod.mk.injEq, true_and] at h
      refine ⟨?_, h.symm⟩
      intro r hr heq
      apply hfresh
      simp only [Bool.or_eq_true, List.any_eq_true, decide_eq_true_eq]
      exact Or.inl ⟨r, hr, heq⟩

theorem copyItems_ok (fails : Nat → Bool) (newListID : Int) (items : List GoMap) :
    ∀ (k : Nat) (db1 db2 : DB), copyItems fails newListID items k db1 = (.ok (), db2) →
      db2 = { db1 with
        shopping_items_id_seq := db1.shopping_items_id_seq + items.length
        shopping_items := db1.shopping_items ++
          copiedRows newListID db1.shopping_items_id_seq items } ∧
      ∀ r ∈ db1.shopping_items, ∀ row ∈ copiedRows newListID db1.shopping_items_id_seq items,
        r.id ≠ row.id := by
  induction items with
  | nil =>
    intro k db1 db2 h
    simp only [copyItems, Prod.mk.injEq, true_and] at h
    subst h
    simp [copiedRows]
  | cons item rest ih =>
    intro k db1 db2 h
    simp only [copyItems] at h
    split at h
    · simp at h
    · rename_i u dbm hins
      obtain ⟨hfresh, hdbm⟩ := insertItem_ok hins
      obtain ⟨hdb2, hrest⟩ := ih _ _ _ h
      subst hdbm
      simp only at hdb2 hrest
      constructor
      · rw [hdb2]
        simp only [copiedRows, List.length_cons, List.append_assoc, List.singleton_append,
          Nat.cast_add, Nat.cast_one]
        congr 1
        ring
      · intro r hr row hrow
        simp only [copiedRows, List.mem_cons] at hrow
        rcases hrow with hrow | hrow
        · subst hrow
          exact hfresh r hr
        · exact hrest r (List.mem_append_left _ hr) row hrow

theorem insertHistory_tables (db : DB) (fail : Bool) (user_id original_list_id : Option Int)
    (action : String) (data : JSON) :
    (insertHistory db fail user_id original_list_id action data).2.shopping_lists =
        db.shopping_lists ∧
      (insertHistory db fail user_id original_list_id action data).2.shopping_items =
        db.shopping_items := by
  unfold insertHistory
  split
  · exact ⟨rfl, rfl⟩
  · split
    · dsimp only
      split <;> exact ⟨rfl, rfl⟩
    · exact ⟨rfl, rfl⟩

theorem insertHistory_error {db : DB} {fail : Bool} {user_id original_list_id : Option Int}
    {action : String} {data : JSON} {e : SqlError}
    (h : (insertHistory db fail user_id original_list_id action data).1 = .error e) :
    (insertHistory db fail user_id original_list_id action data).2.list_history =
      db.list_history := by
  unfold insertHistory at h ⊢
  split
  · rfl
  · rename_i hfail
    split
    · rename_i u l
      dsimp only at h ⊢
      split
      · rfl
      · rename_i hc
        simp [hfail, hc] at h
    · rfl

theorem insertHistory_ok {db db1 : DB} {fail : Bool} {user_id original_list_id : Option Int}
    {action : String} {data : JSON}
    (h : insertHistory db fail user_id original_list_id action data = (.ok (), db1)) :
    ∃ u l, user_id = some u ∧ original_list_id = some l ∧
      (∀ r ∈ db.list_history, r.id ≠ db.list_history_id_seq) ∧
      (∃ r ∈ db.shopping_lists, r.id = l) ∧
      db1 = { db with
        list_history_id_seq := db.list_history_id_seq + 1
        list_history := db.list_history ++
          [⟨db.list_history_id_seq, u, some l, action, some data⟩] } := by
  unfold insertHistory at h
  split at h
  · simp at h
  · split at h
    · rename_i u l
      dsimp only at h
      split at h
      · simp at h
      · rename_i hc
        simp only [Prod.mk.injEq, true_and] at h
        simp only [Bool.or_eq_true, List.any_eq_true, decide_eq_true_eq, Bool.not_eq_true',
          not_or, not_exists, not_and, Bool.not_eq_false] at hc
        refine ⟨u, l, rfl, rfl, fun r hr => hc.1 r hr, ?_, h.symm⟩
        have := hc.2
        simp only [List.any_eq_true, decide_eq_true_eq] at this
        exact this
    · simp at h

theorem selectHistoryData_ok {db : DB} {fail : Bool} {id user_id : Option Int} {historyData : JSON}
    (h : selectHistoryData db fail id user_id = .ok historyData) :
    ∃ n u record, id = some n ∧ user_id = some u ∧
      db.list_history.find? (fun h => h.id = n ∧ h.user_id = u) = some record ∧
      record.data = some historyData := by
  unfold selectHistoryData at h
  split at h
  · cases h
  · split at h
    · rename_i n u
      split at h
      · cases h
      · rename_i record hfind
        split at h
        · cases h
        · rename_i hd hdata
          simp only [Except.ok.injEq] at h
          subst h
          exact ⟨n, u, record, rfl, rfl, hfind, hdata⟩
    · cases h

theorem pgInt4_empty : pgInt4 "" = none := by decide

theorem reuseList_created {db db' : DB} {fails : Nat → Bool} {id userID : String} {resp : Response}
    (h : ReuseList db fails id userID = (resp, db')) (hs : resp.status = 201) :
    ∃ historyData listName items newListID db1 db2,
      selectHistoryData db (fails 0) (pgInt4 id) (pgInt4 userID) = .ok historyData ∧
      parseSnapshot historyData = .ok (listName, items) ∧
      insertList db (fails 1) (pgInt4 userID) listName = (.ok newListID, db1) ∧
      copyItems fails newListID items 2 db1 = (.ok (), db2) ∧
      resp = ⟨201, [("id", .num newListID),
        ("message", .str "List created from history successfully")]⟩ ∧
      db' = (insertHistory db2 (fails (2 + items.length)) (pgInt4 userID) (some newListID)
        "reused" (historyEntry id newListID)).2 := by
  unfold ReuseList at h
  split at h
  · simp only [Prod.mk.injEq] at h
    rw [← h.1] at hs
    simp [errorResponse] at hs
  · split at h
    · simp only [Prod.mk.injEq] at h
      rw [← h.1] at hs
      simp [errorResponse] at hs
    · simp only [Prod.mk.injEq] at h
      rw [← h.1] at hs
      simp [errorResponse] at hs
    · rename_i historyData hsel
      split at h
      · simp only [Prod.mk.injEq] at h
        rw [← h.1] at hs
        simp [errorResponse] at hs
      · rename_i listName items hparse
        split at h
        · simp only [Prod.mk.injEq] at h
          rw [← h.1] at hs
          simp [errorResponse] at hs
        · rename_i newListID db1 hlist
          split at h
          · simp only [Prod.mk.injEq] at h
            rw [← h.1] at hs
            simp [errorResponse] at hs
          · rename_i u db2 hcopy
            simp only [Prod.mk.injEq] at h
            exact ⟨historyData, listName, items, newListID, db1, db2, hsel, hparse, hlist, hcopy,
              h.1.symm, h.2.symm⟩

theorem copiedRows_spec (newListID : Int) (items : List GoMap) :
    ∀ seq : Int,
      (copiedRows newListID seq items).map (fun r => r.id) =
          (List.range items.length).map (fun (i : Nat) => seq + (i : Int)) ∧
        List.Forall₂ (fun entry row =>
          row.list_id = newListID ∧ row.name = itemName entry ∧
            row.quantity = some (itemQuantity entry) ∧ row.unit = some (itemUnit entry) ∧
            row.purchased = some false) items (copiedRows newListID seq items) := by
  induction items with
  | nil => intro seq; exact ⟨rfl, List.Forall₂.nil⟩
  | cons item rest ih =>
    intro seq
    obtain ⟨h1, h2⟩ := ih (seq + 1)
    constructor
    · simp only [copiedRows, List.map_cons, List.length_cons, List.range_succ_eq_map, h1,
        List.map_map, Nat.cast_zero, add_zero, List.cons.injEq, true_and]
      apply List.map_congr_left
      intro i _
      simp only [Function.comp, Nat.cast_succ]
      ring
    · exact List.Forall₂.cons ⟨rfl, rfl, rfl, rfl, rfl⟩ h2

theorem itemName_str {entry : GoMap} {s : String} (h : GoMap.get entry "name" = some (.str s)) :
    itemName entry = s := by
  simp [itemName, h]

theorem itemQuantity_num {entry : GoMap} {v : ℚ} (h : GoMap.get entry "quantity" = some (.num v)) :
    itemQuantity entry = .finite v := by
  simp [itemQuantity, h]

theorem itemUnit_str {entry : GoMap} {s : String} (h : GoMap.get entry "unit" = some (.str s)) :
    itemUnit entry = s := by
  simp [itemUnit, h]

theorem itemUnit_null {entry : GoMap} (h : GoMap.get entry "unit" = some .null) :
    itemUnit entry = "" := by
  simp [itemUnit, h]

theorem collectItemMaps_filter (xs : List JSON) :
    ∀ acc : List GoMap,
      (collectItemMaps xs acc).map JSON.obj = acc.map JSON.obj ++ xs.filter JSON.isObject := by
  induction xs with
  | nil => intro acc; simp [collectItemMaps]
  | cons x xs ih =>
    intro acc
    cases x <;> simp [collectItemMaps, ih, JSON.isObject]

theorem insertList_items (db : DB) (fail : Bool) (user_id : Option Int) (name : String) :
    (insertList db fail user_id name).2.shopping_items = db.shopping_items := by
  unfold insertList
  split
  · rfl
  · split
    · rfl
    · dsimp only
      split <;> rfl

theorem decodeItems_not_array (fields : GoMap)
    (h : ∀ xs, GoMap.get fields "items" ≠ some (.arr xs)) : decodeItems fields = [] := by
  unfold decodeItems
  split
  · rename_i xs hxs
    exact absurd hxs (h xs)
  · rfl

theorem selectList_ok {db : DB} {fail : Bool} {id : Option Int} {listName : String} {userID : Int}
    (h : selectList db fail id = .ok (listName, userID)) :
    ∃ n list, id = some n ∧ db.shopping_lists.find? (fun l => l.id = n) = some list ∧
      list.name = listName ∧ list.user_id = userID := by
  unfold selectList at h
  split at h
  · cases h
  · split at h
    · cases h
    · rename_i n
      split at h
      · cases h
      · rename_i list hfind
        simp only [Except.ok.injEq, Prod.mk.injEq] at h
        exact ⟨n, list, rfl, hfind, h.1, h.2⟩

theorem selectItems_ok {db : DB} {fail : Bool} {n : Int} {rows : List ShoppingItemRow}
    (h : selectItems db fail (some n) = .ok rows) :
    rows = (db.shopping_items.filter (fun r => r.list_id = n)).insertionSort
      (fun a b => a.id ≤ b.id) := by
  unfold selectItems at h
  split at h
  · cases h
  · simp only [Except.ok.injEq] at h
    exact h.symm

theorem deleteList_ok {db db2 : DB} {fail : Bool} {n : Int}
    (h : deleteList db fail (some n) = (.ok (), db2)) :
    db2 = { db with
      shopping_lists := db.shopping_lists.filter (fun l => l.id ≠ n)
      shopping_items := db.shopping_items.filter (fun r => r.list_id ≠ n)
      list_history := db.list_history.map (fun h =>
        if h.original_list_id = some n then { h with original_list_id := none } else h) } := by
  unfold deleteList at h
  split at h
  · simp at h
  · simp only [Prod.mk.injEq, true_and] at h
    exact h.symm

theorem markListDone_done {db db' : DB} {fails : Nat → Bool} {id : String}
    {body : Except String Int} {resp : Response}
    (h : MarkListDone db fails id body = (resp, db')) (hs : resp.status = 200) :
    ∃ listName userID rows items dataJSON db1,
      selectList db (fails 0) (pgInt4 id) = .ok (listName, userID) ∧
      selectItems db (fails 1) (pgInt4 id) = .ok rows ∧
      scanItems rows none = .ok items ∧
      marshalSnapshot listName items = .ok dataJSON ∧
      insertHistory db (fails 2) (some userID) (pgInt4 id) "created" dataJSON = (.ok (), db1) ∧
      deleteList db1 (fails 3) (pgInt4 id) = (.ok (), db') := by
  unfold MarkListDone at h
  split at h
  · simp only [Prod.mk.injEq] at h
    rw [← h.1] at hs
    simp [errorResponse] at hs
  · split at h
    · simp only [Prod.mk.injEq] at h
      rw [← h.1] at hs
      simp [errorResponse] at hs
    · rename_i listName userID hlist
      split at h
      · simp only [Prod.mk.injEq] at h
        rw [← h.1] at hs
        simp [errorResponse] at hs
      · rename_i rows hrows
        split at h
        · simp only [Prod.mk.injEq] at h
          rw [← h.1] at hs
          simp [errorResponse] at hs
        · rename_i items hitems
          split at h
          · simp only [Prod.mk.injEq] at h
            rw [← h.1] at hs
            simp [errorResponse] at hs
          · rename_i dataJSON hdata
            split at h
            · simp only [Prod.mk.injEq] at h
              rw [← h.1] at hs
              simp [errorResponse] at hs
            · rename_i u1 db1 hins
              split at h
              · simp only [Prod.mk.injEq] at h
                rw [← h.1] at hs
                simp [errorResponse] at hs
              · rename_i u2 db2 hdel
                simp only [Prod.mk.injEq] at h
                rw [← h.2]
                exact ⟨listName, userID, rows, items, dataJSON, db1, hlist, hrows, hitems, hdata,
                  hins, hdel⟩

theorem selectItems_sorted {db : DB} {fail : Bool} {n : Int} {rows : List ShoppingItemRow}
    (h : selectItems db fail (some n) = .ok rows) :
    List.Sorted (fun a b => a.id ≤ b.id) rows ∧
      rows.Perm (db.shopping_items.filter (fun r => r.list_id = n)) := by
  have hrows := selectItems_ok h
  haveI : IsTotal ShoppingItemRow (fun a b => a.id ≤ b.id) := ⟨fun a b => le_total a.id b.id⟩
  haveI : IsTrans ShoppingItemRow (fun a b => a.id ≤ b.id) :=
    ⟨fun a b c hab hbc => le_trans hab hbc⟩
  rw [hrows]
  exact ⟨List.sorted_insertionSort _ _, List.perm_insertionSort _ _⟩

theorem insertHistory_history (db : DB) (fail : Bool) (user_id original_list_id : Option Int)
    (action : String) (data : JSON) :
    (insertHistory db fail user_id original_list_id action data).2.list_history =
        db.list_history ∨
      ∃ u l, user_id = some u ∧ original_list_id = some l ∧
        (insertHistory db fail user_id original_list_id action data).2.list_history =
          db.list_history ++ [⟨db.list_history_id_seq, u, some l, action, some data⟩] := by
  unfold insertHistory
  split
  · exact Or.inl rfl
  · split
    · rename_i u l
      dsimp only
      split
      · exact Or.inl rfl
      · exact Or.inr ⟨u, l, rfl, rfl, rfl⟩
    · exact Or.inl rfl

theorem buildSnapshot_shape (listName : String) (rows : List ShoppingItemRow) (dataJSON : JSON)
    (hne : rows ≠ []) (h : buildSnapshot listName rows = .ok dataJSON) :
    ∃ entries, dataJSON = .obj [("items", .arr entries), ("name", .str listName)] ∧
      List.Forall₂ (fun r entry => ∃ v b, r.quantity = some (.finite v) ∧ r.purchased = some b ∧
        entry = JSON.obj [("id", .num r.id), ("name", .str r.name), ("purchased", .bool b),
          ("quantity", .num v), ("unit", match r.unit with | none => .null | some u => .str u)])
        rows entries := by
  unfold buildSnapshot at h
  split at h
  · cases h
  · rename_i items hscan
    obtain ⟨ms, hms, hitems⟩ := scanItems_ok rows none items hscan
    have hnil : ms ≠ [] := by
      intro hnil
      subst hnil
      cases hms
      exact hne rfl
    simp only [hnil, if_false, Option.getD_none, List.nil_append] at hitems
    subst hitems
    simp only [marshalSnapshot, marshalItems] at h
    split at h
    · cases h
    · rename_i js0 hjs0
      split at hjs0
      · cases hjs0
      · rename_i js hjs
        simp only [Except.ok.injEq] at hjs0 h
        subst hjs0
        subst h
        refine ⟨js, rfl, ?_⟩
        refine forall₂_comp ?_ rows ms js hms (marshalItemMaps_ok ms js hjs)
        intro r m j hrm hmj
        obtain ⟨q, b, hq, hb, hm⟩ := scanItem_ok hrm
        obtain ⟨v, hv, hj⟩ := marshalItemMap_ok hmj
        subst hm
        simp only at hv
        subst hv
        refine ⟨v, b, hq, hb, ?_⟩
        rw [hj]
        cases r.unit <;> rfl

theorem dispatch_mem {method path : String} {hd : Handler}
    (h : dispatch method path = some hd) : ∃ r ∈ SetupRoutes, r.handler = hd := by
  unfold dispatch at h
  cases hf : SetupRoutes.find? (fun r =>
      r.method = method && matchSegments (pathSegments r.path.data []) (pathSegments path.data []))
    with
  | none => simp [hf] at h
  | some r =>
    simp only [hf, Option.map_some', Option.some.injEq] at h
    exact ⟨r, List.mem_of_find?_eq_some hf, h⟩

theorem itemName_fallback {entry : GoMap} (h : ∀ s, GoMap.get entry "name" ≠ some (.str s)) :
    itemName entry = "" := by
  unfold itemName
  split
  · rename_i s hs
    exact absurd hs (h s)
  · rfl

theorem itemQuantity_fallback {entry : GoMap}
    (h : ∀ v, GoMap.get entry "quantity" ≠ some (.num v)) : itemQuantity entry = .finite 0 := by
  unfold itemQuantity
  split
  · rename_i v hv
    exact absurd hv (h v)
  · rfl

theorem itemUnit_fallback {entry : GoMap} (h : ∀ s, GoMap.get entry "unit" ≠ some (.str s)) :
    itemUnit entry = "" := by
  unfold itemUnit
  split
  · rename_i s hs
    exact absurd hs (h s)
  · rfl

theorem copyItems_total (fails : Nat → Bool) (newListID : Int) (items : List GoMap)
    (hfails : ∀ j, fails j = false) :
    ∀ (k : Nat) (db : DB), (∀ r ∈ db.shopping_items, r.id < db.shopping_items_id_seq) →
      (∃ l ∈ db.shopping_lists, l.id = newListID) →
      ∃ db2, copyItems fails newListID items k db = (.ok (), db2) := by
  induction items with
  | nil => intro k db _ _; exact ⟨db, rfl⟩
  | cons item rest ih =>
    intro k db hfresh hlist
    have hpk : (db.shopping_items.any (fun r => r.id = db.shopping_items_id_seq)) = false := by
      rw [List.any_eq_false]
      intro r hr
      have := hfresh r hr
      simp only [decide_eq_true_eq]
      omega
    have hfk : (db.shopping_lists.any (fun r => r.id = newListID)) = true := by
      rw [List.any_eq_true]
      obtain ⟨l, hl, hid⟩ := hlist
      exact ⟨l, hl, by simp [hid]⟩
    have hins : insertItem db (fails k) newListID (itemName item) (itemQuantity item)
        (itemUnit item) = (.ok (), { db with
          shopping_items_id_seq := db.shopping_items_id_seq + 1
          shopping_items := db.shopping_items ++
            [⟨db.shopping_items_id_seq, newListID, itemName item, some (itemQuantity item),
              some (itemUnit item), some false⟩] }) := by
      simp [insertItem, hfails k, hpk, hfk]
    simp only [copyItems, hins]
    apply ih
    · intro r hr
      simp only [List.mem_append, List.mem_singleton] at hr
      rcases hr with hr | hr
      · have := hfresh r hr
        simp only
        omega
      · subst hr
        simp
    · exact hlist

theorem find?_append_singleton {α : Type} (p : α → Bool) (l : List α) (x r : α)
    (hl : ∀ y ∈ l, p y = false) (h : (l ++ [x]).find? p = some r) : r = x := by
  rw [List.find?_append] at h
  have hnone : l.find? p = none := by
    rw [List.find?_eq_none]
    intro y hy
    simp [hl y hy]
  rw [hnone] at h
  simp only [Option.none_or] at h
  have := List.mem_of_find?_eq_some h
  simpa using this

theorem reuseList_fallback_rows {db db' : DB} {fails : Nat → Bool} {id userID : String}
    {resp : Response} (h : ReuseList db fails id userID = (resp, db'))
    (hs : resp.status = 201) :
    ∃ payload listName items newRows,
      selectHistoryData db (fails 0) (pgInt4 id) (pgInt4 userID) = .ok payload ∧
      parseSnapshot payload = .ok (listName, items) ∧
      db'.shopping_items = db.shopping_items ++ newRows ∧
      List.Forall₂ (fun entry row =>
        row.name = itemName entry ∧ row.quantity = some (itemQuantity entry) ∧
        row.unit = some (itemUnit entry) ∧ row.purchased = some false) items newRows := by
  obtain ⟨historyData, listName, items, newListID, db1, db2, hsel, hparse, hlist, hcopy, _,
    hdb'⟩ := reuseList_created h hs
  obtain ⟨u, _, _, _, hdb1⟩ := insertList_ok hlist
  obtain ⟨hdb2, _⟩ := copyItems_ok fails newListID items 2 db1 db2 hcopy
  refine ⟨historyData, listName, items, copiedRows newListID db.shopping_items_id_seq items,
    hsel, hparse, ?_, ?_⟩
  · rw [hdb', (insertHistory_tables _ _ _ _ _ _).2, hdb2, hdb1]
  · refine List.Forall₂.imp ?_ (copiedRows_spec newListID items db.shopping_items_id_seq).2
    intro entry row ⟨_, h2, h3, h4, h5⟩
    exact ⟨h2, h3, h4, h5⟩

theorem complete_then_reuse {db db1 db2 : DB} {f1 f2 : Nat → Bool} {id hid userID : String}
    {body : Except String Int} {r1 r2 : Response}
    (h1 : MarkListDone db f1 id body = (r1, db1)) (hs1 : r1.status = 200)
    (hhid : pgInt4 hid = some db.list_history_id_seq)
    (h2 : ReuseList db1 f2 hid userID = (r2, db2)) (hs2 : r2.status = 201) :
    ∃ listId newRows, pgInt4 id = some listId ∧
      db2.shopping_items = db1.shopping_items ++ newRows ∧
      List.Forall₂ (fun r row =>
        row.name = r.name ∧ row.quantity = r.quantity ∧ row.unit = some (r.unit.getD "") ∧
        row.purchased = some false)
        ((db.shopping_items.filter (fun r => r.list_id = listId)).insertionSort
          (fun a b => a.id ≤ b.id)) newRows := by
  obtain ⟨listName, owner, rows, items, dataJSON, dbm, hlist, hrows, hitems, hdata, hins, hdel⟩ :=
    markListDone_done h1 hs1
  obtain ⟨listId, list, hid', _, _, _⟩ := selectList_ok hlist
  rw [hid'] at hrows hins hdel
  have hrows' := selectItems_ok hrows
  have hbuild : buildSnapshot listName rows = .ok dataJSON := by
    simp only [buildSnapshot, hitems, hdata]
  obtain ⟨decoded, hparse, hall⟩ := buildSnapshot_decodes listName rows dataJSON hbuild
  obtain ⟨u, l, hu, hl, hpk, _, hdbm⟩ := insertHistory_ok hins
  have hdb1 := deleteList_ok hdel
  obtain ⟨payload, listName', items', newRows, hsel, hparse', hnew, hcopied⟩ :=
    reuseList_fallback_rows h2 hs2
  obtain ⟨n, u', record, hn, _, hfind, hrecdata⟩ := selectHistoryData_ok hsel
  rw [hhid] at hn
  cases hn
  have hhist : db1.list_history = db.list_history.map (fun r =>
      if r.original_list_id = some listId then { r with original_list_id := none } else r) ++
      [⟨db.list_history_id_seq, u, none, "created", some dataJSON⟩] := by
    cases hl
    rw [hdb1, hdbm]
    simp
  rw [hhist] at hfind
  have hrec := find?_append_singleton _ _ _ record (by
    intro y hy
    obtain ⟨r, hr, hry⟩ := List.mem_map.mp hy
    have hne := hpk r hr
    have hyid : y.id = r.id := by
      rw [← hry]
      split <;> rfl
    simp [hyid, hne]) hfind
  rw [hrec] at hrecdata
  simp only [Option.some.injEq] at hrecdata
  subst hrecdata
  rw [hparse] at hparse'
  simp only [Except.ok.injEq, Prod.mk.injEq] at hparse'
  obtain ⟨_, hitems'⟩ := hparse'
  subst hitems'
  refine ⟨listId, newRows, hid', hnew, ?_⟩
  rw [← hrows']
  refine forall₂_comp ?_ rows decoded newRows hall hcopied
  intro r entry row ⟨_, hname, ⟨v, hq, hqe⟩, hunit, _⟩ ⟨hrn, hrq, hru, hrp⟩
  refine ⟨by rw [hrn, itemName_str hname], by rw [hrq, itemQuantity_num hqe, hq], ?_, hrp⟩
  rw [hru]
  cases hcase : r.unit with
  | none =>
    rw [hcase] at hunit
    rw [itemUnit_null hunit]
    rfl
  | some s =>
    rw [hcase] at hunit
    rw [itemUnit_str hunit]
    rfl

/-! ## The claims -/

/-- C1: round trip of the snapshot.  For every list name and every sequence of
item rows (in particular one in ascending identifier order, and the empty
one), whenever lines 226-255 of `MarkListDone` build a payload, the decode
step of `ReuseList` accepts it and returns the list name and one entry per
row, in the same order, each entry carrying the row's id, name, quantity,
unit (`null` for a NULL unit) and purchased flag.  A payload is built whenever
every row has a finite quantity and a non-NULL purchased flag.  The rows
`MarkListDone` reads for a list are its items in ascending identifier order. -/
theorem snapshot_round_trip (listName : String) (rows : List ShoppingItemRow) :
    (∀ dataJSON, buildSnapshot listName rows = .ok dataJSON →
      ∃ decoded, parseSnapshot dataJSON = .ok (listName, decoded) ∧
        List.Forall₂ (fun r entry =>
          GoMap.get entry "id" = some (.num r.id) ∧
          GoMap.get entry "name" = some (.str r.name) ∧
          (∃ v, r.quantity = some (.finite v) ∧ GoMap.get entry "quantity" = some (.num v)) ∧
          GoMap.get entry "unit" = some (match r.unit with | none => .null | some u => .str u) ∧
          (∃ b, r.purchased = some b ∧ GoMap.get entry "purchased" = some (.bool b)))
          rows decoded) ∧
    ((∀ r ∈ rows, (∃ v, r.quantity = some (.finite v)) ∧ ∃ b, r.purchased = some b) →
      ∃ dataJSON, buildSnapshot listName rows = .ok dataJSON) ∧
    (∀ (db : DB) (n : Int) (read : List ShoppingItemRow),
      selectItems db false (some n) = .ok read →
      List.Sorted (fun a b => a.id ≤ b.id) read ∧
        read.Perm (db.shopping_items.filter (fun r => r.list_id = n))) :=
  ⟨fun dataJSON h => buildSnapshot_decodes listName rows dataJSON h,
    buildSnapshot_total listName rows, fun _ _ _ h => selectItems_sorted h⟩

/-- C1 at the three rows of the "Weekend" list and at the empty sequence: a
payload is built, and it decodes to the name with three entries, respectively
with none. -/
theorem snapshot_round_trip_weekend :
    (∃ dataJSON decoded, buildSnapshot "Weekend" weekendRows = .ok dataJSON ∧
      parseSnapshot dataJSON = .ok ("Weekend", decoded) ∧ decoded.length = 3) ∧
    (∃ dataJSON, buildSnapshot "Weekend" [] = .ok dataJSON ∧
      parseSnapshot dataJSON = .ok ("Weekend", [])) := by
  constructor
  · have hrows : ∀ r ∈ weekendRows,
        (∃ v, r.quantity = some (.finite v)) ∧ ∃ b, r.purchased = some b := by
      intro r hr
      simp only [weekendRows, List.mem_cons, List.mem_singleton, List.not_mem_nil, or_false] at hr
      rcases hr with hr | hr | hr <;> subst hr <;> exact ⟨⟨_, rfl⟩, _, rfl⟩
    obtain ⟨dataJSON, hbuild⟩ := (snapshot_round_trip "Weekend" weekendRows).2.1 hrows
    obtain ⟨decoded, hparse, hall⟩ := (snapshot_round_trip "Weekend" weekendRows).1 dataJSON hbuild
    exact ⟨dataJSON, decoded, hbuild, hparse, hall.length_eq.symm⟩
  · obtain ⟨dataJSON, hbuild⟩ := (snapshot_round_trip "Weekend" []).2.1 (by simp)
    obtain ⟨decoded, hparse, hall⟩ := (snapshot_round_trip "Weekend" []).1 dataJSON hbuild
    cases hall
    exact ⟨dataJSON, hbuild, hparse⟩

/-- C2: when `MarkListDone` answers 200, the path parameter names a stored
list; the snapshot decodes to the list's name and to as many entries as the
list has items; the history insert appended exactly one record, with action
"created", owned by the user of the list row (the request body plays no part)
and referring to the list; the delete that follows removed the list and all
its items.  In the final store the history has one record more than before;
the schema's `ON DELETE SET NULL` has cleared the reference of that record,
and of any older record, to the deleted list. -/
theorem markListDone_archives (db db' : DB) (fails : Nat → Bool) (id : String)
    (body : Except String Int) (resp : Response)
    (h : MarkListDone db fails id body = (resp, db')) (hs : resp.status = 200) :
    ∃ listId list payload decoded db1,
      pgInt4 id = some listId ∧
      db.shopping_lists.find? (fun l => l.id = listId) = some list ∧
      parseSnapshot payload = .ok (list.name, decoded) ∧
      decoded.length = (db.shopping_items.filter (fun r => r.list_id = listId)).length ∧
      insertHistory db (fails 2) (some list.user_id) (some listId) "created" payload =
        (.ok (), db1) ∧
      db1.list_history = db.list_history ++
        [⟨db.list_history_id_seq, list.user_id, some listId, "created", some payload⟩] ∧
      deleteList db1 (fails 3) (some listId) = (.ok (), db') ∧
      db'.list_history.length = db.list_history.length + 1 ∧
      db'.list_history = db.list_history.map (fun r =>
          if r.original_list_id = some listId then { r with original_list_id := none } else r) ++
        [⟨db.list_history_id_seq, list.user_id, none, "created", some payload⟩] ∧
      db'.shopping_lists = db.shopping_lists.filter (fun l => l.id ≠ listId) ∧
      db'.shopping_items = db.shopping_items.filter (fun r => r.list_id ≠ listId) ∧
      (∀ l ∈ db'.shopping_lists, l.id ≠ listId) ∧
      (∀ r ∈ db'.shopping_items, r.list_id ≠ listId) := by
  obtain ⟨listName, userID, rows, items, dataJSON, db1, hlist, hrows, hitems, hdata, hins, hdel⟩ :=
    markListDone_done h hs
  obtain ⟨listId, list, hid, hfind, hname, howner⟩ := selectList_ok hlist
  rw [hid] at hrows hins hdel
  have hrows' := selectItems_ok hrows
  have hbuild : buildSnapshot listName rows = .ok dataJSON := by
    simp only [buildSnapshot, hitems, hdata]
  obtain ⟨decoded, hparse, hall⟩ := buildSnapshot_decodes listName rows dataJSON hbuild
  obtain ⟨u, l, hu, hl, _, _, hdb1⟩ := insertHistory_ok hins
  cases hu
  cases hl
  have hdb' := deleteList_ok hdel
  subst hname
  subst howner
  have hlen : decoded.length =
      (db.shopping_items.filter (fun r => r.list_id = listId)).length := by
    rw [← hall.length_eq, hrows', List.length_insertionSort]
  have hhist : db'.list_history = db.list_history.map (fun r =>
      if r.original_list_id = some listId then { r with original_list_id := none } else r) ++
      [⟨db.list_history_id_seq, list.user_id, none, "created", some dataJSON⟩] := by
    rw [hdb', hdb1]
    simp
  refine ⟨listId, list, dataJSON, decoded, db1, hid, hfind, hparse, hlen, hins, by rw [hdb1],
    hdel, by rw [hhist]; simp, hhist, by rw [hdb', hdb1], by rw [hdb', hdb1], ?_, ?_⟩
  · intro x hx
    rw [hdb'] at hx
    simpa using (List.mem_filter.mp hx).2
  · intro x hx
    rw [hdb'] at hx
    simpa using (List.mem_filter.mp hx).2

/-- C2 at list 7 of `weekendDB`, which has three items and belongs to user 1,
completed by a request whose body names user 99: the answer is 200, the one
new record belongs to user 1 and its payload decodes to three entries, and
only the item of the other list is left. -/
theorem markListDone_archives_weekend :
    (MarkListDone weekendDB noFailure "7" (.ok 99)).1.status = 200 ∧
    (MarkListDone weekendDB noFailure "7" (.ok 99)).2.shopping_lists = [⟨8, 2, "Office"⟩] ∧
    (MarkListDone weekendDB noFailure "7" (.ok 99)).2.shopping_items =
      [⟨34, 8, "Paper", some (.finite 5), some "pack", some false⟩] ∧
    ∃ list payload decoded,
      weekendDB.shopping_lists.find? (fun l => l.id = 7) = some list ∧
      list.user_id = 1 ∧
      parseSnapshot payload = .ok (list.name, decoded) ∧ decoded.length = 3 ∧
      (MarkListDone weekendDB noFailure "7" (.ok 99)).2.list_history =
        [⟨4, 1, none, "reused", some (historyEntry "2" 7)⟩,
          ⟨5, list.user_id, none, "created", some payload⟩] := by
  refine ⟨by decide, by decide, by decide, ?_⟩
  obtain ⟨listId, list, payload, decoded, db1, hid, hfind, hparse, hlen, _, _, _, _, hhist, _⟩ :=
    markListDone_archives weekendDB (MarkListDone weekendDB noFailure "7" (.ok 99)).2 noFailure "7"
      (.ok 99) (MarkListDone weekendDB noFailure "7" (.ok 99)).1 rfl (by decide)
  have h7 : listId = 7 := by
    have : pgInt4 "7" = some 7 := by decide
    rw [this] at hid
    exact (Option.some.inj hid).symm
  subst h7
  have hlist : list = ⟨7, 1, "Weekend"⟩ := by
    have : weekendDB.shopping_lists.find? (fun l => l.id = 7) = some ⟨7, 1, "Weekend"⟩ := by decide
    rw [this] at hfind
    exact (Option.some.inj hfind).symm
  refine ⟨list, payload, decoded, hfind, by rw [hlist], hparse, ?_, ?_⟩
  · rw [hlen]
    decide
  · rw [hhist]
    rfl

/-- C3, as amended: when `ReuseList` answers 201, the parameters name a history
record of the requesting user whose payload decodes; exactly one list is
added, owned by that user and named with the decoded name; exactly one item
row is added per decoded item, in order, on the new list, not purchased,
carrying the item's name and quantity, and its unit when that is a string,
while a `null` unit is stored as the empty string.  The identifiers are the
next values of the store's sequences (the answer reports the list's) and
differ from every identifier already in the table; what is stored is made of
those, the requesting user, and the keys "name", "quantity" and "unit" of the
snapshot, so no identifier of the snapshot reaches the store.  The history
gains at most the one "reused" record. -/
theorem reuseList_creates_list_and_items (db db' : DB) (fails : Nat → Bool) (id userID : String)
    (resp : Response) (h : ReuseList db fails id userID = (resp, db'))
    (hs : resp.status = 201) :
    ∃ n u record payload listName items newRows,
      pgInt4 id = some n ∧ pgInt4 userID = some u ∧
      db.list_history.find? (fun r => r.id = n ∧ r.user_id = u) = some record ∧
      record.data = some payload ∧ parseSnapshot payload = .ok (listName, items) ∧
      resp.body = [("id", .num db.shopping_lists_id_seq),
        ("message", .str "List created from history successfully")] ∧
      (∀ l ∈ db.shopping_lists, l.id ≠ db.shopping_lists_id_seq) ∧
      db'.shopping_lists = db.shopping_lists ++ [⟨db.shopping_lists_id_seq, u, listName⟩] ∧
      db'.shopping_items = db.shopping_items ++ newRows ∧
      newRows.map (fun r => r.id) =
        (List.range items.length).map (fun (i : Nat) => db.shopping_items_id_seq + (i : Int)) ∧
      (∀ r ∈ db.shopping_items, ∀ row ∈ newRows, r.id ≠ row.id) ∧
      List.Forall₂ (fun entry row =>
        row.list_id = db.shopping_lists_id_seq ∧ row.purchased = some false ∧
        row.name = itemName entry ∧ row.quantity = some (itemQuantity entry) ∧
        row.unit = some (itemUnit entry) ∧
        (∀ s, GoMap.get entry "name" = some (.str s) → row.name = s) ∧
        (∀ v, GoMap.get entry "quantity" = some (.num v) → row.quantity = some (.finite v)) ∧
        (∀ s, GoMap.get entry "unit" = some (.str s) → row.unit = some s) ∧
        (GoMap.get entry "unit" = some .null → row.unit = some "")) items newRows ∧
      (db'.list_history = db.list_history ∨
        db'.list_history = db.list_history ++
          [⟨db.list_history_id_seq, u, some db.shopping_lists_id_seq, "reused",
            some (historyEntry id db.shopping_lists_id_seq)⟩]) := by
  obtain ⟨historyData, listName, items, newListID, db1, db2, hsel, hparse, hlist, hcopy, hresp,
    hdb'⟩ := reuseList_created h hs
  obtain ⟨n, u, record, hn, hu, hfind, hdata⟩ := selectHistoryData_ok hsel
  obtain ⟨u', hu', hnew, hfresh, hdb1⟩ := insertList_ok hlist
  rw [hu] at hu'
  cases hu'
  obtain ⟨hdb2, hfreshItems⟩ := copyItems_ok fails newListID items 2 db1 db2 hcopy
  obtain ⟨htl, hti⟩ := insertHistory_tables db2 (fails (2 + items.length)) (pgInt4 userID)
    (some newListID) "reused" (historyEntry id newListID)
  obtain ⟨hids, hrows⟩ := copiedRows_spec newListID items db1.shopping_items_id_seq
  have hhist := insertHistory_history db2 (fails (2 + items.length)) (pgInt4 userID)
    (some newListID) "reused" (historyEntry id newListID)
  subst hnew
  refine ⟨n, u, record, historyData, listName, items,
    copiedRows db.shopping_lists_id_seq db.shopping_items_id_seq items, hn, hu, hfind, hdata,
    hparse, by rw [hresp], hfresh, ?_, ?_, ?_, ?_, ?_, ?_⟩
  · rw [hdb', htl, hdb2, hdb1]
  · rw [hdb', hti, hdb2, hdb1]
  · rw [hdb1] at hids
    exact hids
  · rw [hdb1] at hfreshItems
    exact hfreshItems
  · rw [hdb1] at hrows
    refine List.Forall₂.imp ?_ hrows
    intro entry row ⟨h1, h2, h3, h4, h5⟩
    refine ⟨h1, h5, h2, h3, h4, ?_, ?_, ?_, ?_⟩
    · intro s hs'
      rw [h2, itemName_str hs']
    · intro v hv
      rw [h3, itemQuantity_num hv]
    · intro s hs'
      rw [h4, itemUnit_str hs']
    · intro hnull
      rw [h4, itemUnit_null hnull]
  · rw [hdb']
    rcases hhist with hh | ⟨u2, l2, hu2, hl2, hh⟩
    · left
      rw [hh, hdb2, hdb1]
    · right
      rw [hu] at hu2
      cases hu2
      cases hl2
      rw [hh, hdb2, hdb1]

/-- C3 at the payload of the specification, stored as record 5 of user 1:
the answer is 201, the one list is "Groceries" of user 1 with the fresh
identifier 10, and its one item is Milk, 2, "L", not purchased, with the fresh
identifier 20. -/
theorem reuseList_groceries :
    (ReuseList groceriesDB noFailure "5" "1").1.status = 201 ∧
    (ReuseList groceriesDB noFailure "5" "1").2.shopping_lists = [⟨10, 1, "Groceries"⟩] ∧
    (ReuseList groceriesDB noFailure "5" "1").2.shopping_items =
      [⟨20, 10, "Milk", some (.finite 2), some "L", some false⟩] ∧
    ∃ newRows,
      (ReuseList groceriesDB noFailure "5" "1").2.shopping_items =
        groceriesDB.shopping_items ++ newRows ∧
      ∀ r ∈ groceriesDB.shopping_items, ∀ row ∈ newRows, r.id ≠ row.id := by
  refine ⟨by decide, by decide, by decide, ?_⟩
  obtain ⟨_, _, _, _, _, _, newRows, _, _, _, _, _, _, _, _, hitems, _, hfresh, _, _⟩ :=
    reuseList_creates_list_and_items groceriesDB (ReuseList groceriesDB noFailure "5" "1").2
      noFailure "5" "1" (ReuseList groceriesDB noFailure "5" "1").1 rfl (by decide)
  exact ⟨newRows, hitems, hfresh⟩

/-- C3 as originally stated fails on a snapshot whose item has a `null` unit:
`ReuseList` answers 201, the decoded item's unit is `null`, and the item it
creates has the empty string as unit, not NULL. -/
theorem reuseList_null_unit_stored_as_empty :
    (ReuseList nullUnitDB noFailure "5" "1").1.status = 201 ∧
      parseSnapshot nullUnitPayload = .ok ("Groceries",
        [[("id", .num 1), ("name", .str "Milk"), ("purchased", .bool false),
          ("quantity", .num 2), ("unit", .null)]]) ∧
      GoMap.get [("id", .num 1), ("name", .str "Milk"), ("purchased", .bool false),
          ("quantity", .num 2), ("unit", .null)] "unit" = some .null ∧
      (ReuseList nullUnitDB noFailure "5" "1").2.shopping_items =
        [⟨20, 10, "Milk", some (.finite 2), some "", some false⟩] := by
  refine ⟨by decide, rfl, rfl, by decide⟩

/-- C4: when both parameters are integers, the lookup statement runs, and no
history record has both that identifier and that owner (none has the
identifier, or those that have it belong to other users), `ReuseList` answers
404 "History entry not found" and returns the store as it was. -/
theorem reuseList_not_found (db : DB) (fails : Nat → Bool) (id userID : String) (n u : Int)
    (hid : pgInt4 id = some n) (huser : pgInt4 userID = some u) (hrun : fails 0 = false)
    (hno : ∀ r ∈ db.list_history, r.id = n → r.user_id ≠ u) :
    ReuseList db fails id userID = (⟨404, [("error", .str "History entry not found")]⟩, db) := by
  have hne : userID ≠ "" := by
    intro he
    rw [he, pgInt4_empty] at huser
    cases huser
  have hfind : db.list_history.find? (fun r => r.id = n ∧ r.user_id = u) = none := by
    rw [List.find?_eq_none]
    intro r hr
    simp only [decide_eq_true_eq, not_and]
    exact hno r hr
  have hsel : selectHistoryData db (fails 0) (pgInt4 id) (pgInt4 userID) = .error .noRows := by
    simp only [selectHistoryData, hrun, hid, huser, hfind, Bool.false_eq_true, if_false]
  unfold ReuseList
  rw [if_neg hne, hsel]
  rfl

/-- C4 on a store whose only record is number 5 of user 1: asking for record 5
as user 2, and for record 6 as user 1, both give 404 and leave the store as it
was. -/
theorem reuseList_not_found_examples :
    ReuseList groceriesDB noFailure "5" "2" =
        (⟨404, [("error", .str "History entry not found")]⟩, groceriesDB) ∧
      ReuseList groceriesDB noFailure "6" "1" =
        (⟨404, [("error", .str "History entry not found")]⟩, groceriesDB) :=
  ⟨reuseList_not_found groceriesDB noFailure "5" "2" 5 2 (by decide) (by decide) rfl (by decide),
    reuseList_not_found groceriesDB noFailure "6" "1" 6 1 (by decide) (by decide) rfl (by decide)⟩

/-- C5: for every payload that is a JSON object, the decode step of `ReuseList`
succeeds; when the object has no "name" or its "name" is not a string the
decoded name is "Reused List", and when "name" is a string the decoded name is
that string. -/
theorem decode_name_fallback (fields : GoMap) :
    ((∀ s, GoMap.get fields "name" ≠ some (.str s)) →
        ∃ items, parseSnapshot (.obj fields) = .ok ("Reused List", items)) ∧
      (∀ s, GoMap.get fields "name" = some (.str s) →
        ∃ items, parseSnapshot (.obj fields) = .ok (s, items)) := by
  constructor
  · intro h
    refine ⟨decodeItems fields, ?_⟩
    have hname : decodeListName fields = "Reused List" := by
      unfold decodeListName
      split
      · rename_i s hs
        exact absurd hs (h s)
      · rfl
    simp only [parseSnapshot, jsonUnmarshal, hname]
  · intro s h
    refine ⟨decodeItems fields, ?_⟩
    simp only [parseSnapshot, jsonUnmarshal, decodeListName, h]

/-- C5 at an object without "name", at a number, a boolean, `null`, an array and
an object as "name", and at the string "Groceries". -/
theorem decode_name_fallback_examples :
    (∃ items, parseSnapshot (.obj []) = .ok ("Reused List", items)) ∧
      (∃ items, parseSnapshot (.obj [("name", .num 7)]) = .ok ("Reused List", items)) ∧
      (∃ items, parseSnapshot (.obj [("name", .bool true)]) = .ok ("Reused List", items)) ∧
      (∃ items, parseSnapshot (.obj [("name", .null)]) = .ok ("Reused List", items)) ∧
      (∃ items, parseSnapshot (.obj [("name", .arr [.str "a"])]) = .ok ("Reused List", items)) ∧
      (∃ items, parseSnapshot (.obj [("name", .obj [("name", .str "a")])]) =
        .ok ("Reused List", items)) ∧
      (∃ items, parseSnapshot (.obj [("name", .str "Groceries")]) = .ok ("Groceries", items)) :=
  ⟨(decode_name_fallback []).1 (by simp [GoMap.get]),
    (decode_name_fallback [("name", .num 7)]).1 (by simp [GoMap.get]),
    (decode_name_fallback [("name", .bool true)]).1 (by simp [GoMap.get]),
    (decode_name_fallback [("name", .null)]).1 (by simp [GoMap.get]),
    (decode_name_fallback [("name", .arr [.str "a"])]).1 (by simp [GoMap.get]),
    (decode_name_fallback [("name", .obj [("name", .str "a")])]).1 (by simp [GoMap.get]),
    (decode_name_fallback [("name", .str "Groceries")]).2 "Groceries" (by simp [GoMap.get])⟩

/-- C6: for every payload that is a JSON object whose "items" is missing or is
not an array, the decode step of `ReuseList` succeeds with no items; a request
that reads such a payload leaves the items table as it was, whatever statements
fail, and when it answers 201 it has added exactly one list. -/
theorem decode_items_fallback (fields : GoMap)
    (h : ∀ xs, GoMap.get fields "items" ≠ some (.arr xs)) :
    (∃ listName, parseSnapshot (.obj fields) = .ok (listName, [])) ∧
      ∀ (db : DB) (fails : Nat → Bool) (id userID : String),
        selectHistoryData db (fails 0) (pgInt4 id) (pgInt4 userID) = .ok (.obj fields) →
        (ReuseList db fails id userID).2.shopping_items = db.shopping_items ∧
        ((ReuseList db fails id userID).1.status = 201 →
          ∃ newList, (ReuseList db fails id userID).2.shopping_lists =
            db.shopping_lists ++ [newList]) := by
  have hparse : parseSnapshot (.obj fields) = .ok (decodeListName fields, []) := by
    simp only [parseSnapshot, jsonUnmarshal, decodeItems_not_array fields h]
  refine ⟨⟨_, hparse⟩, ?_⟩
  intro db fails id userID hsel
  constructor
  · unfold ReuseList
    split
    · rfl
    · rw [hsel]
      simp only [hparse]
      have hi := insertList_items db (fails 1) (pgInt4 userID) (decodeListName fields)
      split
      · rename_i e db1 hl
        rw [hl] at hi
        exact hi
      · rename_i newListID db1 hl
        rw [hl] at hi
        simp only [copyItems]
        rw [(insertHistory_tables _ _ _ _ _ _).2]
        exact hi
  · intro hs
    obtain ⟨historyData, listName, items, newListID, db1, db2, hsel', hparse', hlist, hcopy, _,
      hdb'⟩ := reuseList_created (Prod.mk.eta).symm hs
    rw [hsel] at hsel'
    cases hsel'
    rw [hparse] at hparse'
    cases hparse'
    obtain ⟨u, _, _, _, hdb1⟩ := insertList_ok hlist
    simp only [copyItems, Prod.mk.injEq, true_and] at hcopy
    subst hcopy
    refine ⟨⟨newListID, u, decodeListName fields⟩, ?_⟩
    rw [hdb', (insertHistory_tables _ _ _ _ _ _).1, hdb1]

/-- C6 at "items" being `null` (what `MarkListDone` writes for a list without
items), a string, a number, a boolean, an object, and missing; and at the
stored payload of `noItemsDB`, whose reuse answers 201, adds one list and no
item. -/
theorem decode_items_fallback_examples :
    (∃ listName, parseSnapshot (.obj [("items", .null)]) = .ok (listName, [])) ∧
      (∃ listName, parseSnapshot (.obj [("items", .str "Milk")]) = .ok (listName, [])) ∧
      (∃ listName, parseSnapshot (.obj [("items", .num 3)]) = .ok (listName, [])) ∧
      (∃ listName, parseSnapshot (.obj [("items", .bool true)]) = .ok (listName, [])) ∧
      (∃ listName, parseSnapshot (.obj [("items", .obj [("0", .obj [])])]) =
        .ok (listName, [])) ∧
      (∃ listName, parseSnapshot (.obj [("name", .str "Empty")]) = .ok (listName, [])) ∧
      (ReuseList noItemsDB noFailure "5" "1").1.status = 201 ∧
      (ReuseList noItemsDB noFailure "5" "1").2.shopping_items = noItemsDB.shopping_items ∧
      ∃ newList, (ReuseList noItemsDB noFailure "5" "1").2.shopping_lists =
        noItemsDB.shopping_lists ++ [newList] :=
  ⟨(decode_items_fallback [("items", .null)] (by simp [GoMap.get])).1,
    (decode_items_fallback [("items", .str "Milk")] (by simp [GoMap.get])).1,
    (decode_items_fallback [("items", .num 3)] (by simp [GoMap.get])).1,
    (decode_items_fallback [("items", .bool true)] (by simp [GoMap.get])).1,
    (decode_items_fallback [("items", .obj [("0", .obj [])])] (by simp [GoMap.get])).1,
    (decode_items_fallback [("name", .str "Empty")] (by simp [GoMap.get])).1,
    by decide,
    ((decode_items_fallback [("items", .null), ("name", .str "Empty")]
      (by simp [GoMap.get])).2 noItemsDB noFailure "5" "1" rfl).1,
    ((decode_items_fallback [("items", .null), ("name", .str "Empty")]
      (by simp [GoMap.get])).2 noItemsDB noFailure "5" "1" rfl).2 (by decide)⟩

/-- C7: for every payload that is a JSON object whose "items" is an array, the
decode step of `ReuseList` succeeds, and the decoded items are exactly the
elements of the array that are JSON objects, in their original order: every
other element is skipped and skips nothing else. -/
theorem decode_items_keeps_objects (fields : GoMap) (itemsData : List JSON)
    (h : GoMap.get fields "items" = some (.arr itemsData)) :
    ∃ listName decoded, parseSnapshot (.obj fields) = .ok (listName, decoded) ∧
      decoded.map JSON.obj = itemsData.filter JSON.isObject := by
  refine ⟨decodeListName fields, decodeItems fields, rfl, ?_⟩
  simp only [decodeItems, h]
  simpa using collectItemMaps_filter itemsData []

/-- C7 at an array of two item maps mixed with a number, a string, `null` and
an array: the two maps are decoded, Milk before Eggs. -/
theorem decode_items_keeps_objects_example :
    ∃ listName decoded,
      parseSnapshot (.obj [("items", .arr [.obj [("name", .str "Milk")], .num 3, .str "x",
        .obj [("name", .str "Eggs")], .null, .arr []])]) = .ok (listName, decoded) ∧
      decoded.map JSON.obj = [.obj [("name", .str "Milk")], .obj [("name", .str "Eggs")]] :=
  decode_items_keeps_objects
    [("items", .arr [.obj [("name", .str "Milk")], .num 3, .str "x",
      .obj [("name", .str "Eggs")], .null, .arr []])]
    [.obj [("name", .str "Milk")], .num 3, .str "x", .obj [("name", .str "Eggs")], .null, .arr []]
    rfl

/-- C8: in `ReuseList`, once the history record has been read and decoded,
the new list inserted and every item copied, a failure of the insert of the
"reused" history record changes nothing in the outcome: the answer is 201
with the new list's identifier, no history record is added, and the new list
and one row per decoded item are in the store. -/
theorem reuseList_history_failure_ignored (db db1 db2 : DB) (fails : Nat → Bool)
    (id userID : String) (historyData : JSON) (listName : String) (items : List GoMap)
    (newListID : Int) (e : SqlError)
    (hsel : selectHistoryData db (fails 0) (pgInt4 id) (pgInt4 userID) = .ok historyData)
    (hparse : parseSnapshot historyData = .ok (listName, items))
    (hlist : insertList db (fails 1) (pgInt4 userID) listName = (.ok newListID, db1))
    (hcopy : copyItems fails newListID items 2 db1 = (.ok (), db2))
    (hfail : (insertHistory db2 (fails (2 + items.length)) (pgInt4 userID) (some newListID)
      "reused" (historyEntry id newListID)).1 = .error e) :
    ∃ u db', pgInt4 userID = some u ∧
      ReuseList db fails id userID =
        (⟨201, [("id", .num newListID),
          ("message", .str "List created from history successfully")]⟩, db') ∧
      db'.list_history = db.list_history ∧
      db'.shopping_lists = db.shopping_lists ++ [⟨newListID, u, listName⟩] ∧
      ∃ newRows, db'.shopping_items = db.shopping_items ++ newRows ∧
        List.Forall₂ (fun entry row =>
          row.list_id = newListID ∧ row.name = itemName entry ∧
            row.quantity = some (itemQuantity entry) ∧ row.unit = some (itemUnit entry) ∧
            row.purchased = some false) items newRows := by
  obtain ⟨u, hu, _, _, hdb1⟩ := insertList_ok hlist
  obtain ⟨hdb2, _⟩ := copyItems_ok fails newListID items 2 db1 db2 hcopy
  have huser : userID ≠ "" := by
    intro he
    rw [he, pgInt4_empty] at hu
    cases hu
  refine ⟨u, (insertHistory db2 (fails (2 + items.length)) (pgInt4 userID) (some newListID)
      "reused" (historyEntry id newListID)).2, hu, ?_, ?_, ?_, ?_⟩
  · unfold ReuseList
    rw [if_neg huser, hsel]
    simp only [hparse, hlist, hcopy]
  · rw [insertHistory_error hfail, hdb2, hdb1]
  · rw [(insertHistory_tables _ _ _ _ _ _).1, hdb2, hdb1]
  · refine ⟨copiedRows newListID db.shopping_items_id_seq items, ?_, ?_⟩
    · rw [(insertHistory_tables _ _ _ _ _ _).2, hdb2, hdb1]
    · exact (copiedRows_spec newListID items db.shopping_items_id_seq).2

/-- C8 at the reuse of record 5 of `groceriesDB` when only the fourth
statement of the request, the history insert, fails: the answer is 201 with
identifier 10, the history is as before, and list 10 and its item are stored. -/
theorem reuseList_history_failure_example :
    ∃ db', ReuseList groceriesDB (failsAt 3) "5" "1" =
        (⟨201, [("id", .num 10),
          ("message", .str "List created from history successfully")]⟩, db') ∧
      db'.list_history = groceriesDB.list_history ∧
      db'.shopping_lists = [⟨10, 1, "Groceries"⟩] ∧
      ∃ newRows, db'.shopping_items = newRows ∧ newRows.length = 1 := by
  obtain ⟨u, db', hu, hrun, hhist, hlists, newRows, hitems, hall⟩ :=
    reuseList_history_failure_ignored groceriesDB
      (insertList groceriesDB false (some 1) "Groceries").2
      (copyItems (failsAt 3) 10
        [[("id", .num 1), ("name", .str "Milk"), ("quantity", .num 2), ("unit", .str "L"),
          ("purchased", .bool false)]] 2
        (insertList groceriesDB false (some 1) "Groceries").2).2
      (failsAt 3) "5" "1" groceriesPayload "Groceries"
      [[("id", .num 1), ("name", .str "Milk"), ("quantity", .num 2), ("unit", .str "L"),
        ("purchased", .bool false)]] 10 .failed rfl rfl rfl rfl rfl
  have hu1 : u = 1 := by
    have : pgInt4 "1" = some 1 := by decide
    rw [this] at hu
    exact (Option.some.inj hu).symm
  subst hu1
  exact ⟨db', hrun, hhist, hlists, newRows, hitems, hall.length_eq.symm⟩

/-- C9: no registration made by `SetupRoutes` names `handlers.MarkListDone`, so
no request is dispatched to it; the POST routes are those of `CreateList`,
`CreateItem` and `ReuseList`, and a POST on a list identifier finds no route. -/
theorem setupRoutes_omits_markListDone :
    (∀ r ∈ SetupRoutes, r.handler ≠ Handler.MarkListDone) ∧
      (∀ method path, dispatch method path ≠ some Handler.MarkListDone) ∧
      (SetupRoutes.filter (fun r => r.method = "POST")).map (fun r => (r.path, r.handler)) =
        [("/api/v1/lists", Handler.CreateList), ("/api/v1/items", Handler.CreateItem),
          ("/api/v1/history/reuse/:id", Handler.ReuseList)] ∧
      dispatch "POST" "/api/v1/lists/1" = none ∧
      dispatch "POST" "/api/v1/lists/1/done" = none := by
  have hno : ∀ r ∈ SetupRoutes, r.handler ≠ Handler.MarkListDone := by decide
  refine ⟨hno, ?_, by decide, by decide, by decide⟩
  intro method path hd
  obtain ⟨r, hr, hh⟩ := dispatch_mem hd
  exact hno r hr hh

/-- C10: the payload `MarkListDone` writes for a list without items has `null`,
not an array, under "items" (shown for every list name, and on the request
that completes list 3 of `emptyListDB`); for a list with at least one item
the payload is an object with the string "name" and an array "items" holding,
per row and in order, an object with exactly the fields id, name, purchased,
quantity and unit, the unit being a string or `null`. -/
theorem markListDone_snapshot_shape :
    (∀ listName, buildSnapshot listName [] =
        .ok (.obj [("items", .null), ("name", .str listName)])) ∧
      (MarkListDone emptyListDB noFailure "3" (.ok 1)).1.status = 200 ∧
      (MarkListDone emptyListDB noFailure "3" (.ok 1)).2.list_history =
        [⟨1, 1, none, "created", some (.obj [("items", .null), ("name", .str "Empty")])⟩] ∧
      (∀ listName rows dataJSON, rows ≠ [] → buildSnapshot listName rows = .ok dataJSON →
        ∃ entries, dataJSON = .obj [("items", .arr entries), ("name", .str listName)] ∧
          List.Forall₂ (fun r entry => ∃ v b, r.quantity = some (.finite v) ∧
            r.purchased = some b ∧
            entry = JSON.obj [("id", .num r.id), ("name", .str r.name), ("purchased", .bool b),
              ("quantity", .num v),
              ("unit", match r.unit with | none => .null | some u => .str u)])
            rows entries) :=
  ⟨fun _ => rfl, by decide, rfl, buildSnapshot_shape⟩

/-- C11: when `ReuseList` copies a decoded item map, a field that is absent or of
the wrong JSON type is replaced by Go's zero value, and the item is neither
skipped nor rejected.  First part: when the answer is 201 there is exactly one
new row per decoded item, in order, whose name is "" when "name" is missing or
not a string, whose quantity is 0 (not the column default 1) when "quantity" is
missing or not a number, and whose unit is "" (not NULL) when "unit" is missing,
`null` or not a string.  Second part: when no statement fails, the new list
exists and the item identifiers in use lie below the sequence, the copy loop
succeeds whatever the fields of the items are.  Third part: when a list is
completed with `MarkListDone` and the record it wrote is reused, the new rows
are the list's items in ascending identifier order with the same name and
quantity, not purchased, and with the unit of the item, a NULL unit having
become "". -/
theorem reuseList_zero_value_fallbacks :
    (∀ (db db' : DB) (fails : Nat → Bool) (id userID : String) (resp : Response),
      ReuseList db fails id userID = (resp, db') → resp.status = 201 →
      ∃ payload listName items newRows,
        selectHistoryData db (fails 0) (pgInt4 id) (pgInt4 userID) = .ok payload ∧
        parseSnapshot payload = .ok (listName, items) ∧
        db'.shopping_items = db.shopping_items ++ newRows ∧
        List.Forall₂ (fun entry row =>
          ((∀ s, GoMap.get entry "name" ≠ some (.str s)) → row.name = "") ∧
          ((∀ v, GoMap.get entry "quantity" ≠ some (.num v)) →
            row.quantity = some (.finite 0)) ∧
          ((∀ s, GoMap.get entry "unit" ≠ some (.str s)) → row.unit = some "") ∧
          row.purchased = some false) items newRows) ∧
    (∀ (fails : Nat → Bool) (newListID : Int) (items : List GoMap) (k : Nat) (db : DB),
      (∀ j, fails j = false) →
      (∀ r ∈ db.shopping_items, r.id < db.shopping_items_id_seq) →
      (∃ l ∈ db.shopping_lists, l.id = newListID) →
      ∃ db2, copyItems fails newListID items k db = (.ok (), db2)) ∧
    (∀ (db db1 db2 : DB) (f1 f2 : Nat → Bool) (id hid userID : String)
      (body : Except String Int) (r1 r2 : Response),
      MarkListDone db f1 id body = (r1, db1) → r1.status = 200 →
      pgInt4 hid = some db.list_history_id_seq →
      ReuseList db1 f2 hid userID = (r2, db2) → r2.status = 201 →
      ∃ listId newRows, pgInt4 id = some listId ∧
        db2.shopping_items = db1.shopping_items ++ newRows ∧
        List.Forall₂ (fun r row =>
          row.name = r.name ∧ row.quantity = r.quantity ∧
          row.unit = some (r.unit.getD "") ∧ row.purchased = some false)
          ((db.shopping_items.filter (fun r => r.list_id = listId)).insertionSort
            (fun a b => a.id ≤ b.id)) newRows) := by
  refine ⟨?_, ?_, ?_⟩
  · intro db db' fails id userID resp h hs
    obtain ⟨payload, listName, items, newRows, hsel, hparse, hnew, hrows⟩ :=
      reuseList_fallback_rows h hs
    refine ⟨payload, listName, items, newRows, hsel, hparse, hnew, ?_⟩
    refine List.Forall₂.imp ?_ hrows
    intro entry row ⟨hn, hq, hu, hp⟩
    refine ⟨?_, ?_, ?_, hp⟩
    · intro hno
      rw [hn, itemName_fallback hno]
    · intro hno
      rw [hq, itemQuantity_fallback hno]
    · intro hno
      rw [hu, itemUnit_fallback hno]
  · intro fails newListID items k db hfails hfresh hlist
    exact copyItems_total fails newListID items hfails k db hfresh hlist
  · intro db db1 db2 f1 f2 id hid userID body r1 r2 h1 hs1 hhid h2 hs2
    exact complete_then_reuse h1 hs1 hhid h2 hs2

/-- C11 at two stores.  The snapshot of `looseItemsDB` holds an empty item map,
one whose fields all have the wrong type and one with a `null` unit: its reuse
answers 201 and inserts three rows, with "" and 0 in place of what is missing.
List 7 of `weekendDB`, whose item Eggs has a NULL unit, is completed and the
record reused: Eggs comes back with unit "". -/
theorem reuseList_zero_value_examples :
    (ReuseList looseItemsDB noFailure "5" "1").1.status = 201 ∧
    (ReuseList looseItemsDB noFailure "5" "1").2.shopping_items =
      [⟨20, 10, "", some (.finite 0), some "", some false⟩,
        ⟨21, 10, "", some (.finite 0), some "", some false⟩,
        ⟨22, 10, "Eggs", some (.finite 12), some "", some false⟩] ∧
    (∃ payload listName items newRows,
      selectHistoryData looseItemsDB false (pgInt4 "5") (pgInt4 "1") = .ok payload ∧
      parseSnapshot payload = .ok (listName, items) ∧
      (ReuseList looseItemsDB noFailure "5" "1").2.shopping_items =
        looseItemsDB.shopping_items ++ newRows ∧ items.length = newRows.length) ∧
    (MarkListDone weekendDB noFailure "7" (.ok 99)).1.status = 200 ∧
    (ReuseList weekendDoneDB noFailure "5" "1").1.status = 201 ∧
    (ReuseList weekendDoneDB noFailure "5" "1").2.shopping_items =
      [⟨34, 8, "Paper", some (.finite 5), some "pack", some false⟩,
        ⟨35, 9, "Milk", some (.finite 2), some "L", some false⟩,
        ⟨36, 9, "Eggs", some (.finite 12), some "", some false⟩,
        ⟨37, 9, "Bread", some (.finite 1), some "", some false⟩] ∧
    (∃ listId newRows, pgInt4 "7" = some listId ∧
      (ReuseList weekendDoneDB noFailure "5" "1").2.shopping_items =
        weekendDoneDB.shopping_items ++ newRows ∧
      ((weekendDB.shopping_items.filter (fun r => r.list_id = listId)).insertionSort
        (fun a b => a.id ≤ b.id)).length = newRows.length) := by
  refine ⟨by decide, by decide, ?_, by decide, by decide, by decide, ?_⟩
  · obtain ⟨payload, listName, items, newRows, hsel, hparse, hnew, hrows⟩ :=
      reuseList_zero_value_fallbacks.1 looseItemsDB
        (ReuseList looseItemsDB noFailure "5" "1").2 noFailure "5" "1"
        (ReuseList looseItemsDB noFailure "5" "1").1 rfl (by decide)
    exact ⟨payload, listName, items, newRows, hsel, hparse, hnew, hrows.length_eq⟩
  · obtain ⟨listId, newRows, hid, hnew, hrows⟩ :=
      reuseList_zero_value_fallbacks.2.2 weekendDB weekendDoneDB
        (ReuseList weekendDoneDB noFailure "5" "1").2 noFailure noFailure "7" "5" "1" (.ok 99)
        (MarkListDone weekendDB noFailure "7" (.ok 99)).1
        (ReuseList weekendDoneDB noFailure "5" "1").1 rfl (by decide) (by decide) rfl
        (by decide)
    exact ⟨listId, newRows, hid, hnew, hrows.length_eq⟩

end ShoppingList
